import Mathlib

deriving instance DecidableEq for Except

/-!
Verification of the MMIO device manager snapshot subsystem
(`src/vmm/src/device_manager/persist.rs`).

The Rust source is shallowly embedded: the record schemas, the two
serialization hooks and the save/restore traversals are translated
directly from `persist.rs`.  Collaborators that live outside that file
(the MMIO slot descriptor, the slot sanity check, the versionize
emission rules, the VM-resources callbacks) are modelled from the
specification and are marked as such in their doc comments.  Save and
restore additionally emit a ghost event trace recording, in order, the
externally observable actions they perform (device callbacks, MMDS
updates, vsock transport-reset sends); the traces let us state and
settle the ordering and error-path claims.
-/

namespace DevicePersist

/-- Holds the MMDS data store version (`MmdsVersionState` in persist.rs). -/
inductive MmdsVersionState
  | V1
  | V2
deriving DecidableEq

/-- Modelled from the spec: `MMIODeviceInfo`, the MMIO slot descriptor
(base address, length, IRQ).  It is defined in `device_manager/mmio.rs`,
which is not among the sources; the spec describes it as
`{ base_address, length, irq }`, immutable once allocated. -/
structure MMIODeviceInfo where
  addr : Nat
  len : Nat
  irq : Nat
deriving DecidableEq

/-- Modelled from the spec: the members of `arch::DeviceType` that the
snapshot subsystem distinguishes (legacy serial, legacy RTC, and the
ephemeral boot timer). -/
inductive DeviceType
  | serial
  | rtc
  | bootTimer
deriving DecidableEq

/-- Opaque per-device balloon state (`BalloonState`); the spec treats it
as an opaque byte-producing sub-schema. -/
abbrev BalloonState := Nat

/-- Opaque per-device block state (`BlockState`). -/
abbrev BlockState := Nat

/-- Per-device net state (`NetState`): opaque payload plus the
`mmds_ns` field, whose presence and data-store version the save and
restore traversals inspect. -/
structure NetState where
  payload : Nat
  mmds_ns : Option MmdsVersionState
deriving DecidableEq

/-- Per-device vsock state (`VsockState`): backend sub-state plus the
frontend sub-state carrying the guest CID. -/
structure VsockState where
  backend : Nat
  frontend_cid : Nat
  frontend_payload : Nat
deriving DecidableEq

/-- Opaque virtio MMIO transport state (`MmioTransportState`). -/
abbrev MmioTransportState := Nat

/-- A live bus device as the save traversal distinguishes them: a virtio
device behind an MMIO transport (carrying the state the transport and
device `save()` calls would capture), or a legacy device.  A live vsock
additionally carries whether it is activated and whether the
transport-reset-event send would succeed (the environment of the send). -/
inductive BusDevice
  | balloon (ts : MmioTransportState) (st : BalloonState)
  | block (ts : MmioTransportState) (st : BlockState)
  | net (ts : MmioTransportState) (st : NetState)
  | vsock (ts : MmioTransportState) (st : VsockState) (activated : Bool) (send_ok : Bool)
  | serial
  | rtc
  | bootTimer
deriving DecidableEq

/-- One entry of the live device directory: device id, MMIO slot, device. -/
structure DeviceEntry where
  devid : String
  devinfo : MMIODeviceInfo
  dev : BusDevice
deriving DecidableEq

/-- Modelled from the spec: the `MMIODeviceManager` (mmio.rs is not among
the sources).  Per the spec it is an ordered directory of devices, seeded
with the platform MMIO base and IRQ range; `for_each_device` visits the
entries in directory order. -/
structure MMIODeviceManager where
  mmio_base : Nat
  irq_first : Nat
  irq_last : Nat
  entries : List DeviceEntry
deriving DecidableEq

/-- The constructor `MMIODeviceManager::new(base, (irq_first, irq_last))`. -/
def MMIODeviceManager.new (base : Nat) (irqs : Nat × Nat) : MMIODeviceManager :=
  { mmio_base := base, irq_first := irqs.1, irq_last := irqs.2, entries := [] }

/-- Modelled from the spec: the platform MMIO window start
(`arch::MMIO_MEM_START`). -/
def MMIO_MEM_START : Nat := 0xd0000000

/-- Modelled from the spec: the first guest IRQ available for devices
(`arch::IRQ_BASE`). -/
def IRQ_BASE : Nat := 5

/-- Modelled from the spec: the last guest IRQ available for devices
(`arch::IRQ_MAX`). -/
def IRQ_MAX : Nat := 23

/-- Record `ConnectedBalloonState` from persist.rs. -/
structure ConnectedBalloonState where
  device_id : String
  device_state : BalloonState
  transport_state : MmioTransportState
  mmio_slot : MMIODeviceInfo
deriving DecidableEq

/-- Record `ConnectedBlockState` from persist.rs. -/
structure ConnectedBlockState where
  device_id : String
  device_state : BlockState
  transport_state : MmioTransportState
  mmio_slot : MMIODeviceInfo
deriving DecidableEq

/-- Record `ConnectedNetState` from persist.rs. -/
structure ConnectedNetState where
  device_id : String
  device_state : NetState
  transport_state : MmioTransportState
  mmio_slot : MMIODeviceInfo
deriving DecidableEq

/-- Record `ConnectedVsockState` from persist.rs. -/
structure ConnectedVsockState where
  device_id : String
  device_state : VsockState
  transport_state : MmioTransportState
  mmio_slot : MMIODeviceInfo
deriving DecidableEq

/-- Record `ConnectedLegacyState` from persist.rs. -/
structure ConnectedLegacyState where
  type_ : DeviceType
  mmio_slot : MMIODeviceInfo
deriving DecidableEq

/-- Record `DeviceStates` from persist.rs: the aggregate snapshot root. -/
structure DeviceStates where
  legacy_devices : List ConnectedLegacyState
  block_devices : List ConnectedBlockState
  net_devices : List ConnectedNetState
  vsock_device : Option ConnectedVsockState
  balloon_device : Option ConnectedBalloonState
  mmds_version : Option MmdsVersionState
deriving DecidableEq

/-- The variants of `versionize::VersionizeError` the hooks can produce. -/
inductive VersionizeError
  | Semantic (msg : String)
deriving DecidableEq

/-- Hook `DeviceStates::balloon_serialize` from persist.rs: the `ser_fn` hook
of the `balloon_device` field. -/
def DeviceStates.balloon_serialize (self : DeviceStates) (target_version : Nat) :
    Except VersionizeError Unit :=
  if target_version < 2 && self.balloon_device.isSome then
    Except.error (VersionizeError.Semantic
      ("Target version does not implement the virtio-balloon device."))
  else
    Except.ok ()

/-- Hook `DeviceStates::mmds_version_serialize` from persist.rs: the `ser_fn`
hook of the `mmds_version` field.  The returned Bool records whether the
hook logged its warning; the hook itself always succeeds. -/
def DeviceStates.mmds_version_serialize (self : DeviceStates) (target_version : Nat) :
    Except VersionizeError Unit × Bool :=
  if target_version < 3 && self.mmds_version.isSome then
    (Except.ok (), true)
  else
    (Except.ok (), false)

/-- Modelled from the spec: the wire image of a `DeviceStates` produced
by the versionize serializer.  The base fields exist since version 1;
for the two versioned fields, `none` means the field was not emitted
into the buffer at all. -/
structure DeviceStatesWire where
  legacy_devices : List ConnectedLegacyState
  block_devices : List ConnectedBlockState
  net_devices : List ConnectedNetState
  vsock_device : Option ConnectedVsockState
  balloon_field : Option (Option ConnectedBalloonState)
  mmds_field : Option (Option MmdsVersionState)
deriving DecidableEq

/-- Modelled from the spec: versionize serialization of `DeviceStates`
at a target version.  The field hooks (`balloon_serialize`, starting
version 2, and `mmds_version_serialize`, starting version 3 — both taken
from persist.rs) run first and may reject; a field is emitted iff its
start version is at most the target.  The Bool reports whether a warning
was logged. -/
def DeviceStates.serialize (self : DeviceStates) (target_version : Nat) :
    Except VersionizeError DeviceStatesWire × Bool :=
  match self.balloon_serialize target_version with
  | Except.error e => (Except.error e, false)
  | Except.ok _ =>
    let w := (self.mmds_version_serialize target_version).2
    (Except.ok
      { legacy_devices := self.legacy_devices
        block_devices := self.block_devices
        net_devices := self.net_devices
        vsock_device := self.vsock_device
        balloon_field := if 2 ≤ target_version then some self.balloon_device else none
        mmds_field := if 3 ≤ target_version then some self.mmds_version else none }, w)

/-- Modelled from the spec: versionize deserialization of a
`DeviceStates` wire image at a source version.  A field absent in the
source version is deserialized as its type's default (`none`). -/
def DeviceStates.deserialize (w : DeviceStatesWire) (source_version : Nat) : DeviceStates :=
  { legacy_devices := w.legacy_devices
    block_devices := w.block_devices
    net_devices := w.net_devices
    vsock_device := w.vsock_device
    balloon_device := if 2 ≤ source_version then w.balloon_field.getD none else none
    mmds_version := if 3 ≤ source_version then w.mmds_field.getD none else none }

/-- Ghost events emitted by the save traversal: the attempted
transport-reset send to an activated vsock, and the error log written
when that send fails. -/
inductive SaveEvent
  | transportReset (id : String)
  | logResetError (id : String)
deriving DecidableEq

/-- The empty `DeviceStates` the save traversal starts from (the struct
literal at the top of `MMIODeviceManager::save`). -/
def DeviceStates.empty : DeviceStates :=
  { legacy_devices := []
    block_devices := []
    net_devices := []
    vsock_device := none
    balloon_device := none
    mmds_version := none }

/-- The body of the `for_each_device` closure in
`MMIODeviceManager::save`: folds one directory entry into the
accumulated `DeviceStates`, emitting the ghost save events of that
entry. -/
def saveDevice (states : DeviceStates) (e : DeviceEntry) : DeviceStates × List SaveEvent :=
  match e.dev with
  | BusDevice.bootTimer => (states, [])
  | BusDevice.serial =>
    let r : ConnectedLegacyState := { type_ := DeviceType.serial, mmio_slot := e.devinfo }
    ({ states with legacy_devices := states.legacy_devices ++ [r] }, [])
  | BusDevice.rtc =>
    let r : ConnectedLegacyState := { type_ := DeviceType.rtc, mmio_slot := e.devinfo }
    ({ states with legacy_devices := states.legacy_devices ++ [r] }, [])
  | BusDevice.balloon ts st =>
    let r : ConnectedBalloonState :=
      { device_id := e.devid, device_state := st, transport_state := ts, mmio_slot := e.devinfo }
    ({ states with balloon_device := some r }, [])
  | BusDevice.block ts st =>
    let r : ConnectedBlockState :=
      { device_id := e.devid, device_state := st, transport_state := ts, mmio_slot := e.devinfo }
    ({ states with block_devices := states.block_devices ++ [r] }, [])
  | BusDevice.net ts st =>
    let states1 :=
      match st.mmds_ns, states.mmds_version with
      | some v, none => { states with mmds_version := some v }
      | _, _ => states
    let r : ConnectedNetState :=
      { device_id := e.devid, device_state := st, transport_state := ts, mmio_slot := e.devinfo }
    ({ states1 with net_devices := states1.net_devices ++ [r] }, [])
  | BusDevice.vsock ts st activated send_ok =>
    let evs :=
      if activated then
        if send_ok then [SaveEvent.transportReset e.devid]
        else [SaveEvent.transportReset e.devid, SaveEvent.logResetError e.devid]
      else []
    let r : ConnectedVsockState :=
      { device_id := e.devid, device_state := st, transport_state := ts, mmio_slot := e.devinfo }
    ({ states with vsock_device := some r }, evs)

/-- The fold of `saveDevice` over the directory entries, in directory
order, accumulating the ghost events. -/
def saveLoop (states : DeviceStates) (evs : List SaveEvent) :
    List DeviceEntry → DeviceStates × List SaveEvent
  | [] => (states, evs)
  | e :: rest =>
    let p := saveDevice states e
    saveLoop p.1 (evs ++ p.2) rest

/-- Function `MMIODeviceManager::save` from persist.rs, with the ghost event
list.  `for_each_device` is modelled from the spec as in-order iteration
of the ordered directory. -/
def MMIODeviceManager.save (m : MMIODeviceManager) : DeviceStates × List SaveEvent :=
  saveLoop DeviceStates.empty [] m.entries

/-- Union `SharedDeviceType` from persist.rs: the tagged union handed to the
`for_each_restored_device` callback; each variant carries the restored
device's content. -/
inductive SharedDeviceType
  | sharedBalloon (st : BalloonState)
  | sharedBlock (st : BlockState)
  | sharedNetwork (st : NetState)
  | sharedVsock (st : VsockState)
deriving DecidableEq

/-- Modelled from the spec: the default MMDS data store version used by
the legacy-compatibility branch (`mmds_or_default`). -/
def mmdsDefaultVersion : MmdsVersionState := MmdsVersionState.V1

/-- Modelled from the spec: the slice of `VmResources` the subsystem
touches — the MMDS handle (its data store version and the instance id it
was scoped to), a flag saying whether `set_mmds_version` would reject
the configuration, and the high-level device configuration mirrored by
`update_from_restored_device`. -/
structure VmResources where
  mmds : Option MmdsVersionState
  mmds_instance : Option String
  set_rejects : Bool
  balloon_cfg : Option BalloonState
  block_cfgs : List BlockState
  net_cfgs : List NetState
  vsock_cfg : Option VsockState
deriving DecidableEq

/-- The `MmdsConfigError` surfaced when the MMDS version setter rejects. -/
inductive MmdsConfigError
  | rejected
deriving DecidableEq

/-- Modelled from the spec: `VmResources::set_mmds_version`, the
authoritative MMDS version setter, scoped to the instance id; it may
reject the configuration (the `set_rejects` flag). -/
def VmResources.set_mmds_version (res : VmResources) (v : MmdsVersionState)
    (instance_id : String) : Except MmdsConfigError VmResources :=
  if res.set_rejects then Except.error MmdsConfigError.rejected
  else Except.ok { res with mmds := some v, mmds_instance := some instance_id }

/-- Modelled from the spec: `VmResources::mmds_or_default`, the
idempotent initializer of the MMDS data store with its default version. -/
def VmResources.mmds_or_default (res : VmResources) : VmResources :=
  if res.mmds.isSome then res else { res with mmds := some mmdsDefaultVersion }

/-- Modelled from the spec: `VmResources::update_from_restored_device`,
the standard `for_each_restored_device` callback — mirrors the restored
device into the high-level VMM configuration. -/
def VmResources.update_from_restored_device (res : VmResources) (d : SharedDeviceType) :
    VmResources :=
  match d with
  | SharedDeviceType.sharedBalloon st => { res with balloon_cfg := some st }
  | SharedDeviceType.sharedBlock st => { res with block_cfgs := res.block_cfgs ++ [st] }
  | SharedDeviceType.sharedNetwork st => { res with net_cfgs := res.net_cfgs ++ [st] }
  | SharedDeviceType.sharedVsock st => { res with vsock_cfg := some st }

/-- The error enum of persist.rs (`Error`); inner error payloads are
dropped since the device implementations are out of scope. -/
inductive Error
  | Balloon
  | Block
  | DeviceManager
  | MmioTransport
  | Legacy
  | Net
  | Vsock
  | VsockUnixBackend
  | MmdsConfig
deriving DecidableEq

/-- Ghost events emitted by the restore traversal, in the order the
corresponding actions happen: one event per device handed to the
`for_each_restored_device` callback (carrying what the callback saw; for
net devices also the MMDS handle passed to the constructor), one per
registered legacy device, and one per MMDS reconciliation action. -/
inductive REvent
  | legacy (t : DeviceType)
  | balloon (id : String) (st : BalloonState)
  | block (id : String) (st : BlockState)
  | mmdsSet (v : MmdsVersionState) (instance_id : String)
  | mmdsDefault
  | net (id : String) (st : NetState) (marg : Option MmdsVersionState)
  | vsock (id : String) (st : VsockState)
deriving DecidableEq

/-- Whether two MMIO slots overlap as address ranges `[addr, addr+len)`. -/
def overlaps (a b : MMIODeviceInfo) : Bool :=
  decide (a.addr < b.addr + b.len) && decide (b.addr < a.addr + a.len)

/-- Modelled from the spec: `slot_sanity_check` — the base address lies
within the manager's MMIO window, the IRQ lies within the manager's IRQ
range, and neither the slot nor the IRQ collides with a previously
registered device. -/
def MMIODeviceManager.slot_sanity_check (m : MMIODeviceManager) (slot : MMIODeviceInfo) : Bool :=
  decide (m.mmio_base ≤ slot.addr) && decide (m.irq_first ≤ slot.irq) &&
    decide (slot.irq ≤ m.irq_last) &&
    m.entries.all (fun e => !overlaps e.devinfo slot && decide (e.devinfo.irq ≠ slot.irq))

/-- Appends a device to the directory under the given id and slot
(the registration step shared by all register functions). -/
def MMIODeviceManager.register (m : MMIODeviceManager) (id : String) (slot : MMIODeviceInfo)
    (dev : BusDevice) : MMIODeviceManager :=
  { m with entries := m.entries ++ [{ devid := id, devinfo := slot, dev := dev }] }

/-- The `restore_helper` closure of `MMIODeviceManager::restore`: slot
sanity check, transport reconstruction from the transport state
(modelled as total — its failures are environmental), registration in
the directory, event-manager subscription (a no-op in the model). -/
def restore_helper (m : MMIODeviceManager) (id : String) (slot : MMIODeviceInfo)
    (dev : BusDevice) : Except Error MMIODeviceManager :=
  if m.slot_sanity_check slot then Except.ok (m.register id slot dev)
  else Except.error Error.DeviceManager

/-- Modelled from the spec: the device id under which the restored
default serial device is registered. -/
def serialDeviceId : String := "Serial"

/-- Modelled from the spec: the device id under which the restored
default RTC device is registered. -/
def rtcDeviceId : String := "RTC"

/-- Modelled from the spec: `register_mmio_serial` — registers a default
serial device at the given slot, failing on a slot or IRQ conflict. -/
def MMIODeviceManager.register_mmio_serial (m : MMIODeviceManager) (slot : MMIODeviceInfo) :
    Except Error MMIODeviceManager :=
  if m.slot_sanity_check slot then Except.ok (m.register serialDeviceId slot BusDevice.serial)
  else Except.error Error.DeviceManager

/-- Modelled from the spec: `register_mmio_rtc` — registers a default
RTC device at the given slot, failing on a slot or IRQ conflict. -/
def MMIODeviceManager.register_mmio_rtc (m : MMIODeviceManager) (slot : MMIODeviceInfo) :
    Except Error MMIODeviceManager :=
  if m.slot_sanity_check slot then Except.ok (m.register rtcDeviceId slot BusDevice.rtc)
  else Except.error Error.DeviceManager

/-- The result of one restore phase (and of restore itself): the manager
or the error, the final state of the caller's `VmResources`, and the
ghost event trace. -/
abbrev PhaseOut := Except Error MMIODeviceManager × VmResources × List REvent

/-- Sequencing of restore phases: on success the continuation runs on
the grown manager and updated resources and the traces concatenate; on
error the error, the resources and the trace so far are final. -/
def pseq (r : PhaseOut) (k : MMIODeviceManager → VmResources → PhaseOut) : PhaseOut :=
  match r with
  | (Except.ok m, res, tr) =>
    let s := k m res
    (s.1, s.2.1, tr ++ s.2.2)
  | (Except.error e, res, tr) => (Except.error e, res, tr)

/-- The legacy-device loop of `MMIODeviceManager::restore`: for each
`ConnectedLegacyState`, a default serial or RTC device is constructed
(construction is modelled as total; its failures are environmental) and
registered at the recorded slot.  Records with any other type are
skipped, as in the source's pair of `if` statements.  Resources are
untouched. -/
def restoreLegacyLoop (m : MMIODeviceManager) :
    List ConnectedLegacyState → Except Error MMIODeviceManager × List REvent
  | [] => (Except.ok m, [])
  | s :: rest =>
    match s.type_ with
    | DeviceType.serial =>
      match m.register_mmio_serial s.mmio_slot with
      | Except.ok m' =>
        let p := restoreLegacyLoop m' rest
        (p.1, REvent.legacy DeviceType.serial :: p.2)
      | Except.error e => (Except.error e, [REvent.legacy DeviceType.serial])
    | DeviceType.rtc =>
      match m.register_mmio_rtc s.mmio_slot with
      | Except.ok m' =>
        let p := restoreLegacyLoop m' rest
        (p.1, REvent.legacy DeviceType.rtc :: p.2)
      | Except.error e => (Except.error e, [REvent.legacy DeviceType.rtc])
    | DeviceType.bootTimer => restoreLegacyLoop m rest

/-- The legacy phase as a `PhaseOut` (resources pass through). -/
def restoreLegacyPhase (m : MMIODeviceManager) (res : VmResources)
    (l : List ConnectedLegacyState) : PhaseOut :=
  let p := restoreLegacyLoop m l
  (p.1, res, p.2)

/-- The balloon step of `MMIODeviceManager::restore`: construct the
balloon from its state (total in the model), inform the VM resources via
the callback, then run the restore helper.  The callback runs before the
helper, so its effect on the resources survives a helper failure. -/
def restoreBalloonPhase (f : VmResources → SharedDeviceType → VmResources)
    (m : MMIODeviceManager) (res : VmResources) :
    Option ConnectedBalloonState → PhaseOut
  | none => (Except.ok m, res, [])
  | some b =>
    let res' := f res (SharedDeviceType.sharedBalloon b.device_state)
    let ev := REvent.balloon b.device_id b.device_state
    match restore_helper m b.device_id b.mmio_slot
        (BusDevice.balloon b.transport_state b.device_state) with
    | Except.ok m' => (Except.ok m', res', [ev])
    | Except.error e => (Except.error e, res', [ev])

/-- The block loop of `MMIODeviceManager::restore`, in sequence order:
construct each block from its state, inform the VM resources, run the
restore helper, then continue with the rest. -/
def restoreBlocksLoop (f : VmResources → SharedDeviceType → VmResources)
    (m : MMIODeviceManager) (res : VmResources) :
    List ConnectedBlockState → PhaseOut
  | [] => (Except.ok m, res, [])
  | b :: rest =>
    let res' := f res (SharedDeviceType.sharedBlock b.device_state)
    let ev := REvent.block b.device_id b.device_state
    match restore_helper m b.device_id b.mmio_slot
        (BusDevice.block b.transport_state b.device_state) with
    | Except.ok m' =>
      let p := restoreBlocksLoop f m' res' rest
      (p.1, p.2.1, ev :: p.2.2)
    | Except.error e => (Except.error e, res', [ev])

/-- The MMDS reconciliation step of `MMIODeviceManager::restore`: if the
snapshot persisted an MMDS version, set it on the VM resources scoped to
the instance id (a rejection becomes `Error::MmdsConfig`); otherwise, if
at least one net state declares an MMDS namespace, initialize the data
store with the default; otherwise do nothing. -/
def restoreMmdsPhase (instance_id : String) (nets : List ConnectedNetState)
    (m : MMIODeviceManager) (res : VmResources) :
    Option MmdsVersionState → PhaseOut
  | some v =>
    match res.set_mmds_version v instance_id with
    | Except.ok res' => (Except.ok m, res', [REvent.mmdsSet v instance_id])
    | Except.error _ => (Except.error Error.MmdsConfig, res, [])
  | none =>
    if nets.any (fun d => d.device_state.mmds_ns.isSome) then
      (Except.ok m, res.mmds_or_default, [REvent.mmdsDefault])
    else
      (Except.ok m, res, [])

/-- The net loop of `MMIODeviceManager::restore`, in sequence order:
construct each net from its state and the MMDS handle currently held by
the VM resources, inform the VM resources, run the restore helper, then
continue. -/
def restoreNetsLoop (f : VmResources → SharedDeviceType → VmResources)
    (m : MMIODeviceManager) (res : VmResources) :
    List ConnectedNetState → PhaseOut
  | [] => (Except.ok m, res, [])
  | n :: rest =>
    let marg := res.mmds
    let res' := f res (SharedDeviceType.sharedNetwork n.device_state)
    let ev := REvent.net n.device_id n.device_state marg
    match restore_helper m n.device_id n.mmio_slot
        (BusDevice.net n.transport_state n.device_state) with
    | Except.ok m' =>
      let p := restoreNetsLoop f m' res' rest
      (p.1, p.2.1, ev :: p.2.2)
    | Except.error e => (Except.error e, res', [ev])

/-- The vsock step of `MMIODeviceManager::restore`: reconstruct the
backend from the backend sub-state and the guest CID, then the frontend
(both total in the model — their failures are environmental), inform the
VM resources, run the restore helper.  The restored device is not
activated and its reset-send environment is fresh. -/
def restoreVsockPhase (f : VmResources → SharedDeviceType → VmResources)
    (m : MMIODeviceManager) (res : VmResources) :
    Option ConnectedVsockState → PhaseOut
  | none => (Except.ok m, res, [])
  | some v =>
    let res' := f res (SharedDeviceType.sharedVsock v.device_state)
    let ev := REvent.vsock v.device_id v.device_state
    match restore_helper m v.device_id v.mmio_slot
        (BusDevice.vsock v.transport_state v.device_state false true) with
    | Except.ok m' => (Except.ok m', res', [ev])
    | Except.error e => (Except.error e, res', [ev])

/-- Record `MMIODevManagerConstructorArgs` from persist.rs (the VM fd and the
event manager carry no observable state in the model and are omitted). -/
structure MMIODevManagerConstructorArgs where
  mem : Nat
  for_each_restored_device : VmResources → SharedDeviceType → VmResources
  vm_resources : VmResources
  instance_id : String

/-- Function `MMIODeviceManager::restore` from persist.rs: allocate a fresh
manager seeded with the platform MMIO base and IRQ range, then run the
phases in the source's order — legacy devices, balloon, block devices,
MMDS reconciliation, net devices, vsock.  The result carries the final
state of the caller's `VmResources` whether or not restore succeeded,
and the ghost event trace. -/
def MMIODeviceManager.restore (args : MMIODevManagerConstructorArgs)
    (state : DeviceStates) : PhaseOut :=
  let m0 := MMIODeviceManager.new MMIO_MEM_START (IRQ_BASE, IRQ_MAX)
  let f := args.for_each_restored_device
  pseq (restoreLegacyPhase m0 args.vm_resources state.legacy_devices) fun m1 res1 =>
  pseq (restoreBalloonPhase f m1 res1 state.balloon_device) fun m2 res2 =>
  pseq (restoreBlocksLoop f m2 res2 state.block_devices) fun m3 res3 =>
  pseq (restoreMmdsPhase args.instance_id state.net_devices m3 res3 state.mmds_version)
    fun m4 res4 =>
  pseq (restoreNetsLoop f m4 res4 state.net_devices) fun m5 res5 =>
  restoreVsockPhase f m5 res5 state.vsock_device

/-- The legacy record the save traversal emits for a directory entry,
if any. -/
def legacyRecOf (e : DeviceEntry) : Option ConnectedLegacyState :=
  match e.dev with
  | BusDevice.serial => some { type_ := DeviceType.serial, mmio_slot := e.devinfo }
  | BusDevice.rtc => some { type_ := DeviceType.rtc, mmio_slot := e.devinfo }
  | _ => none

/-- The balloon record the save traversal emits for a directory entry,
if any. -/
def balloonRecOf (e : DeviceEntry) : Option ConnectedBalloonState :=
  match e.dev with
  | BusDevice.balloon ts st =>
    some { device_id := e.devid, device_state := st, transport_state := ts,
           mmio_slot := e.devinfo }
  | _ => none

/-- The block record the save traversal emits for a directory entry,
if any. -/
def blockRecOf (e : DeviceEntry) : Option ConnectedBlockState :=
  match e.dev with
  | BusDevice.block ts st =>
    some { device_id := e.devid, device_state := st, transport_state := ts,
           mmio_slot := e.devinfo }
  | _ => none

/-- The net record the save traversal emits for a directory entry,
if any. -/
def netRecOf (e : DeviceEntry) : Option ConnectedNetState :=
  match e.dev with
  | BusDevice.net ts st =>
    some { device_id := e.devid, device_state := st, transport_state := ts,
           mmio_slot := e.devinfo }
  | _ => none

/-- The vsock record the save traversal emits for a directory entry,
if any. -/
def vsockRecOf (e : DeviceEntry) : Option ConnectedVsockState :=
  match e.dev with
  | BusDevice.vsock ts st _ _ =>
    some { device_id := e.devid, device_state := st, transport_state := ts,
           mmio_slot := e.devinfo }
  | _ => none

/-- The ghost save events one directory entry produces. -/
def saveEventsOf (e : DeviceEntry) : List SaveEvent :=
  match e.dev with
  | BusDevice.vsock _ _ activated send_ok =>
    if activated then
      if send_ok then [SaveEvent.transportReset e.devid]
      else [SaveEvent.transportReset e.devid, SaveEvent.logResetError e.devid]
    else []
  | _ => []

theorem saveLoop_legacy (es : List DeviceEntry) : ∀ states evs,
    (saveLoop states evs es).1.legacy_devices =
      states.legacy_devices ++ es.filterMap legacyRecOf := by
  induction es with
  | nil => intro states evs; simp [saveLoop]
  | cons e rest ih =>
    intro states evs
    cases e with
    | mk devid devinfo dev =>
      cases dev <;>
        simp [saveLoop, saveDevice, legacyRecOf, ih] <;>
        first
        | rfl
        | (rename_i ts st
           cases h : st.mmds_ns <;> cases h2 : states.mmds_version <;>
             simp [saveLoop, saveDevice, legacyRecOf, ih, h, h2])

theorem saveLoop_blocks (es : List DeviceEntry) : ∀ states evs,
    (saveLoop states evs es).1.block_devices =
      states.block_devices ++ es.filterMap blockRecOf := by
  induction es with
  | nil => intro states evs; simp [saveLoop]
  | cons e rest ih =>
    intro states evs
    cases e with
    | mk devid devinfo dev =>
      cases dev <;>
        simp [saveLoop, saveDevice, blockRecOf, ih] <;>
        first
        | rfl
        | (rename_i ts st
           cases h : st.mmds_ns <;> cases h2 : states.mmds_version <;>
             simp [saveLoop, saveDevice, blockRecOf, ih, h, h2])

theorem saveLoop_nets (es : List DeviceEntry) : ∀ states evs,
    (saveLoop states evs es).1.net_devices =
      states.net_devices ++ es.filterMap netRecOf := by
  induction es with
  | nil => intro states evs; simp [saveLoop]
  | cons e rest ih =>
    intro states evs
    cases e with
    | mk devid devinfo dev =>
      cases dev <;>
        simp [saveLoop, saveDevice, netRecOf, ih] <;>
        first
        | rfl
        | (rename_i ts st
           cases h : st.mmds_ns <;> cases h2 : states.mmds_version <;>
             simp [saveLoop, saveDevice, netRecOf, ih, h, h2])

theorem saveLoop_balloon (es : List DeviceEntry) : ∀ states evs,
    (saveLoop states evs es).1.balloon_device =
      ((es.filterMap balloonRecOf).getLast?).or states.balloon_device := by
  induction es with
  | nil => intro states evs; simp [saveLoop]
  | cons e rest ih =>
    intro states evs
    cases e with
    | mk devid devinfo dev =>
      cases dev with
      | balloon ts st =>
        simp only [saveLoop, saveDevice, List.filterMap_cons, balloonRecOf, ih]
        cases h : (rest.filterMap balloonRecOf) with
        | nil => simp
        | cons a l =>
          rw [Option.or_of_isSome, Option.or_of_isSome] <;> simp [List.getLast?_isSome]
      | net ts st =>
        simp only [saveLoop, saveDevice]
        cases h : st.mmds_ns <;> cases h2 : states.mmds_version <;>
          simp [saveLoop, saveDevice, balloonRecOf, ih, h, h2]
      | _ => simp [saveLoop, saveDevice, balloonRecOf, ih]

theorem saveLoop_vsock (es : List DeviceEntry) : ∀ states evs,
    (saveLoop states evs es).1.vsock_device =
      ((es.filterMap vsockRecOf).getLast?).or states.vsock_device := by
  induction es with
  | nil => intro states evs; simp [saveLoop]
  | cons e rest ih =>
    intro states evs
    cases e with
    | mk devid devinfo dev =>
      cases dev with
      | vsock ts st act ok =>
        simp only [saveLoop, saveDevice, List.filterMap_cons, vsockRecOf, ih]
        cases h : (rest.filterMap vsockRecOf) with
        | nil => simp
        | cons a l =>
          rw [Option.or_of_isSome, Option.or_of_isSome] <;> simp [List.getLast?_isSome]
      | net ts st =>
        simp only [saveLoop, saveDevice]
        cases h : st.mmds_ns <;> cases h2 : states.mmds_version <;>
          simp [saveLoop, saveDevice, vsockRecOf, ih, h, h2]
      | _ => simp [saveLoop, saveDevice, vsockRecOf, ih]

theorem saveLoop_events (es : List DeviceEntry) : ∀ states evs,
    (saveLoop states evs es).2 = evs ++ es.flatMap saveEventsOf := by
  induction es with
  | nil => intro states evs; simp [saveLoop]
  | cons e rest ih =>
    intro states evs
    cases e with
    | mk devid devinfo dev =>
      cases dev <;> simp [saveLoop, saveDevice, saveEventsOf, ih]

/-- A concrete `DeviceStates` carrying a balloon record, used by the
serialization witnesses. -/
def connectedBalloon0 : ConnectedBalloonState :=
  { device_id := "balloon0", device_state := 123, transport_state := 10,
    mmio_slot := { addr := 0xd0000000, len := 0x1000, irq := 5 } }

def statesWithBalloon : DeviceStates :=
  { DeviceStates.empty with balloon_device := some connectedBalloon0 }

/-- A concrete `DeviceStates` carrying an MMDS version, used by the
serialization witnesses. -/
def statesWithMmds : DeviceStates :=
  { DeviceStates.empty with mmds_version := some MmdsVersionState.V2 }

/-- C4: serializing a `DeviceStates` whose `balloon_device` is `Some` at
target version 1 fails with the `Semantic` (schema-semantic) error; at
any target version ≥ 2, and for any `DeviceStates` with
`balloon_device = None` at any version, the `balloon_serialize` hook
passes without error. -/
theorem balloon_serialize_gates_version_one (st : DeviceStates) (t : Nat) :
    (st.balloon_device.isSome →
      (st.serialize 1).1 = Except.error (VersionizeError.Semantic
        ("Target version does not implement the virtio-balloon device."))) ∧
    (2 ≤ t → st.balloon_serialize t = Except.ok ()) ∧
    (st.balloon_device = none → st.balloon_serialize t = Except.ok ()) := by
  refine ⟨fun h => ?_, fun h => ?_, fun h => ?_⟩
  · simp [DeviceStates.serialize, DeviceStates.balloon_serialize, h]
  · have : ¬ t < 2 := by omega
    simp [DeviceStates.balloon_serialize, this]
  · simp [DeviceStates.balloon_serialize, h]

/-- Witness for `balloon_serialize_gates_version_one` at a concrete
balloon-carrying `DeviceStates` and target version 2. -/
theorem balloon_serialize_gates_version_one_witness :
    (statesWithBalloon.serialize 1).1 = Except.error (VersionizeError.Semantic
      ("Target version does not implement the virtio-balloon device.")) ∧
    statesWithBalloon.balloon_serialize 2 = Except.ok () ∧
    DeviceStates.empty.balloon_serialize 1 = Except.ok () :=
  ⟨(balloon_serialize_gates_version_one statesWithBalloon 2).1 (by decide),
   (balloon_serialize_gates_version_one statesWithBalloon 2).2.1 (by omega),
   (balloon_serialize_gates_version_one DeviceStates.empty 1).2.2 (by decide)⟩

/-- C5: serializing a `DeviceStates` with `mmds_version = Some v` at
target version 2 succeeds — the `mmds_version_serialize` hook only logs
a warning and returns Ok — the `mmds_version` field is not emitted into
the buffer, and deserializing that buffer at source version 2 yields
`mmds_version = None`. -/
theorem mmds_version_soft_drop (st : DeviceStates) (v : MmdsVersionState)
    (h : st.mmds_version = some v) :
    st.mmds_version_serialize 2 = (Except.ok (), true) ∧
    ∃ w, (st.serialize 2).1 = Except.ok w ∧ w.mmds_field = none ∧
      (DeviceStates.deserialize w 2).mmds_version = none := by
  constructor
  · simp [DeviceStates.mmds_version_serialize, h]
  · refine ⟨⟨st.legacy_devices, st.block_devices, st.net_devices, st.vsock_device,
      some st.balloon_device, none⟩, ?_, rfl, rfl⟩
    simp [DeviceStates.serialize, DeviceStates.balloon_serialize]

/-- Witness for `mmds_version_soft_drop` at a concrete `DeviceStates`
with `mmds_version = Some V2`. -/
theorem mmds_version_soft_drop_witness :
    statesWithMmds.mmds_version_serialize 2 = (Except.ok (), true) ∧
    ∃ w, (statesWithMmds.serialize 2).1 = Except.ok w ∧ w.mmds_field = none ∧
      (DeviceStates.deserialize w 2).mmds_version = none :=
  mmds_version_soft_drop statesWithMmds MmdsVersionState.V2 (by decide)

/-- C10: the `DeviceStates` a save produces holds at most one balloon
record and at most one vsock record, each equal to the record of the
last balloon (resp. vsock) device the traversal visited: when the
directory holds several devices of one of these kinds, each
later-visited device's record silently overwrites the earlier one, and
save (whose return type has no error channel) returns the states without
reporting any error. -/
theorem save_balloon_vsock_last_wins (m : MMIODeviceManager) :
    (m.save).1.balloon_device = (m.entries.filterMap balloonRecOf).getLast? ∧
    (m.save).1.vsock_device = (m.entries.filterMap vsockRecOf).getLast? := by
  constructor <;>
    simp [MMIODeviceManager.save, saveLoop_balloon, saveLoop_vsock, DeviceStates.empty]

theorem count_reset_saveEventsOf_ne (a : DeviceEntry) (d : String) (hne : ¬ a.devid = d) :
    (saveEventsOf a).count (SaveEvent.transportReset d) = 0 := by
  cases a with
  | mk devid devinfo dev =>
    cases dev with
    | vsock ts st act ok =>
      cases act <;> cases ok <;> simp_all [saveEventsOf, List.count_cons]
    | _ => simp [saveEventsOf]

theorem count_reset_flatMap_zero (l : List DeviceEntry) (d : String)
    (h : ∀ a ∈ l, ¬ a.devid = d) :
    (l.flatMap saveEventsOf).count (SaveEvent.transportReset d) = 0 := by
  induction l with
  | nil => simp
  | cons a rest ih =>
    simp only [List.flatMap_cons, List.count_append]
    rw [count_reset_saveEventsOf_ne a d (h a (by simp)),
      ih (fun x hx => h x (List.mem_cons_of_mem a hx))]

theorem count_reset_flatMap (l : List DeviceEntry) (e : DeviceEntry)
    (ts : MmioTransportState) (st : VsockState) (act send_ok : Bool)
    (he : e ∈ l) (hdev : e.dev = BusDevice.vsock ts st act send_ok)
    (hids : (l.map DeviceEntry.devid).Nodup) :
    (l.flatMap saveEventsOf).count (SaveEvent.transportReset e.devid) =
      if act then 1 else 0 := by
  induction l with
  | nil => cases he
  | cons a rest ih =>
    simp only [List.flatMap_cons, List.count_append]
    rcases List.mem_cons.1 he with rfl | hmem
    · have hnotin : ∀ x ∈ rest, ¬ x.devid = e.devid := by
        intro x hx hx2
        exact (List.nodup_cons.1 hids).1 (hx2 ▸ List.mem_map_of_mem DeviceEntry.devid hx)
      rw [count_reset_flatMap_zero rest e.devid hnotin]
      cases e with
      | mk devid devinfo dev =>
        subst hdev
        cases act <;> cases send_ok <;> simp [saveEventsOf]
    · have hne : ¬ a.devid = e.devid := by
        intro h
        exact (List.nodup_cons.1 hids).1 (h ▸ List.mem_map_of_mem DeviceEntry.devid hmem)
      rw [count_reset_saveEventsOf_ne a e.devid hne,
        ih hmem (List.nodup_cons.1 hids).2]
      simp

/-- C9: when save visits an activated vsock device it sends the
transport-reset event exactly once, and for a non-activated one it sends
none; a send failure only produces an error log (it is swallowed — save
has no error channel), and the returned `DeviceStates` contains the
vsock record either way. -/
theorem save_vsock_transport_reset (m : MMIODeviceManager) (e : DeviceEntry)
    (ts : MmioTransportState) (st : VsockState) (act send_ok : Bool)
    (he : e ∈ m.entries) (hdev : e.dev = BusDevice.vsock ts st act send_ok)
    (hids : (m.entries.map DeviceEntry.devid).Nodup) :
    ((m.save).2.count (SaveEvent.transportReset e.devid) = if act then 1 else 0) ∧
    (m.save).1.vsock_device.isSome := by
  constructor
  · have hev : (m.save).2 = m.entries.flatMap saveEventsOf := by
      simp [MMIODeviceManager.save, saveLoop_events]
    rw [hev]
    exact count_reset_flatMap m.entries e ts st act send_ok he hdev hids
  · have hvs : (m.save).1.vsock_device =
        (m.entries.filterMap vsockRecOf).getLast? := by
      simp [MMIODeviceManager.save, saveLoop_vsock, DeviceStates.empty]
    rw [hvs, Option.isSome_iff_ne_none]
    intro hnone
    have hnil : m.entries.filterMap vsockRecOf = [] := by
      cases h : m.entries.filterMap vsockRecOf with
      | nil => rfl
      | cons x xs =>
        rw [h] at hnone
        simp [List.getLast?_eq_none_iff] at hnone
    have := (List.filterMap_eq_nil_iff.1 hnil) e he
    simp [vsockRecOf, hdev] at this

/-- A concrete vsock device state used by witnesses. -/
def vsockSt0 : VsockState := { backend := 1, frontend_cid := 3, frontend_payload := 2 }

/-- A concrete directory entry: an activated vsock whose transport-reset
send fails. -/
def vsockEntry0 : DeviceEntry :=
  { devid := "vsock0", devinfo := { addr := 0xd0001000, len := 0x1000, irq := 6 },
    dev := BusDevice.vsock 13 vsockSt0 true false }

/-- A concrete directory with one block device and `vsockEntry0`. -/
def vsockWitnessM : MMIODeviceManager :=
  { mmio_base := MMIO_MEM_START, irq_first := IRQ_BASE, irq_last := IRQ_MAX,
    entries := [
      { devid := "root", devinfo := { addr := 0xd0000000, len := 0x1000, irq := 5 },
        dev := BusDevice.block 11 200 },
      vsockEntry0 ] }

/-- Witness for `save_vsock_transport_reset`: a directory with one
activated vsock (whose reset send fails) and one block device. -/
theorem save_vsock_transport_reset_witness :
    ((vsockWitnessM.save).2.count (SaveEvent.transportReset vsockEntry0.devid) = 1) ∧
      (vsockWitnessM.save).1.vsock_device.isSome := by
  have h := save_vsock_transport_reset vsockWitnessM vsockEntry0
    13 vsockSt0 true false (by simp [vsockWitnessM]) rfl (by decide)
  simpa using h

/-- How a `DeviceStates` produced by save references one directory
entry, if at all: boot timers are skipped, legacy records carry only the
slot, virtio records carry the device id and the slot. -/
def saveRefOf (e : DeviceEntry) : Option (Option String × MMIODeviceInfo) :=
  match e.dev with
  | BusDevice.bootTimer => none
  | BusDevice.serial => some (none, e.devinfo)
  | BusDevice.rtc => some (none, e.devinfo)
  | BusDevice.balloon _ _ => some (some e.devid, e.devinfo)
  | BusDevice.block _ _ => some (some e.devid, e.devinfo)
  | BusDevice.net _ _ => some (some e.devid, e.devinfo)
  | BusDevice.vsock _ _ _ _ => some (some e.devid, e.devinfo)

/-- All device references a `DeviceStates` holds, as (optional id, slot)
pairs, one per record. -/
def DeviceStates.refs (s : DeviceStates) : List (Option String × MMIODeviceInfo) :=
  s.legacy_devices.map (fun l => ((none : Option String), l.mmio_slot)) ++
  s.block_devices.map (fun b => (some b.device_id, b.mmio_slot)) ++
  s.net_devices.map (fun n => (some n.device_id, n.mmio_slot)) ++
  s.vsock_device.toList.map (fun v => (some v.device_id, v.mmio_slot)) ++
  s.balloon_device.toList.map (fun b => (some b.device_id, b.mmio_slot))

theorem getLast?_toList_of_length_le_one {α : Type} (l : List α) (h : l.length ≤ 1) :
    l.getLast?.toList = l := by
  match l with
  | [] => rfl
  | [a] => rfl
  | a :: b :: t => simp at h

theorem saveRef_partition (es : List DeviceEntry) :
    (((es.filterMap legacyRecOf).map (fun l => ((none : Option String), l.mmio_slot)) :
        List (Option String × MMIODeviceInfo)) : Multiset (Option String × MMIODeviceInfo)) +
    ↑((es.filterMap blockRecOf).map (fun b => (some b.device_id, b.mmio_slot))) +
    ↑((es.filterMap netRecOf).map (fun n => (some n.device_id, n.mmio_slot))) +
    ↑((es.filterMap vsockRecOf).map (fun v => (some v.device_id, v.mmio_slot))) +
    ↑((es.filterMap balloonRecOf).map (fun b => (some b.device_id, b.mmio_slot))) =
    ↑(es.filterMap saveRefOf) := by
  induction es with
  | nil => rfl
  | cons e rest ih =>
    cases e with
    | mk devid devinfo dev =>
      cases dev <;>
        simp only [legacyRecOf, blockRecOf, netRecOf, vsockRecOf, balloonRecOf, saveRefOf,
          List.filterMap_cons, List.map_cons, ← Multiset.cons_coe, Multiset.cons_add,
          Multiset.add_cons] <;>
        rw [← ih]

/-- C7 (amended): for every live device directory holding at most one
balloon and at most one vsock device, save skips BootTimer devices (no
record of any kind is emitted for them) and the returned `DeviceStates`
references every live non-BootTimer device exactly once, each record
carrying the device's own mmio slot.  (Without the at-most-one bound the
Option-typed balloon and vsock records overwrite, so an earlier device
of those kinds is not referenced.) -/
theorem save_refs_live_devices (m : MMIODeviceManager)
    (hb : (m.entries.filterMap balloonRecOf).length ≤ 1)
    (hv : (m.entries.filterMap vsockRecOf).length ≤ 1) :
    (((m.save).1.refs : List (Option String × MMIODeviceInfo)) :
        Multiset (Option String × MMIODeviceInfo)) =
      ↑(m.entries.filterMap saveRefOf) := by
  have hleg : (m.save).1.legacy_devices = m.entries.filterMap legacyRecOf := by
    simp [MMIODeviceManager.save, saveLoop_legacy, DeviceStates.empty]
  have hblk : (m.save).1.block_devices = m.entries.filterMap blockRecOf := by
    simp [MMIODeviceManager.save, saveLoop_blocks, DeviceStates.empty]
  have hnet : (m.save).1.net_devices = m.entries.filterMap netRecOf := by
    simp [MMIODeviceManager.save, saveLoop_nets, DeviceStates.empty]
  have hbal : (m.save).1.balloon_device.toList = m.entries.filterMap balloonRecOf := by
    have : (m.save).1.balloon_device = (m.entries.filterMap balloonRecOf).getLast? := by
      simp [MMIODeviceManager.save, saveLoop_balloon, DeviceStates.empty]
    rw [this, getLast?_toList_of_length_le_one _ hb]
  have hvs : (m.save).1.vsock_device.toList = m.entries.filterMap vsockRecOf := by
    have : (m.save).1.vsock_device = (m.entries.filterMap vsockRecOf).getLast? := by
      simp [MMIODeviceManager.save, saveLoop_vsock, DeviceStates.empty]
    rw [this, getLast?_toList_of_length_le_one _ hv]
  rw [DeviceStates.refs, hleg, hblk, hnet, hbal, hvs]
  rw [← Multiset.coe_add, ← Multiset.coe_add, ← Multiset.coe_add, ← Multiset.coe_add]
  exact saveRef_partition m.entries

/-- A directory holding a boot timer and two balloon devices. -/
def twoBalloonM : MMIODeviceManager :=
  { mmio_base := MMIO_MEM_START, irq_first := IRQ_BASE, irq_last := IRQ_MAX,
    entries := [
      { devid := "bt", devinfo := { addr := 0xd0004000, len := 0x1000, irq := 9 },
        dev := BusDevice.bootTimer },
      { devid := "balloonA", devinfo := { addr := 0xd0000000, len := 0x1000, irq := 5 },
        dev := BusDevice.balloon 10 100 },
      { devid := "balloonB", devinfo := { addr := 0xd0001000, len := 0x1000, irq := 6 },
        dev := BusDevice.balloon 10 101 } ] }

/-- Counterexample to C7 as stated: in a directory with two balloon
devices, the saved `DeviceStates` does not reference every live
non-BootTimer device — the first balloon's record was overwritten. -/
theorem save_refs_two_balloons_counterexample :
    ¬ ((((twoBalloonM.save).1.refs : List (Option String × MMIODeviceInfo)) :
        Multiset (Option String × MMIODeviceInfo)) =
      ↑(twoBalloonM.entries.filterMap saveRefOf)) := by
  decide

/-- Witness for `save_refs_live_devices`: a directory with one device of
every kind, including a boot timer that save skips. -/
theorem save_refs_live_devices_witness :
    (((vsockWitnessM.save).1.refs : List (Option String × MMIODeviceInfo)) :
        Multiset (Option String × MMIODeviceInfo)) =
      ↑(vsockWitnessM.entries.filterMap saveRefOf) :=
  save_refs_live_devices vsockWitnessM (by decide) (by decide)

/-- Replays the resource effect of one ghost restore event: legacy
events have none, device events re-run the callback, MMDS events re-run
the successful setter or the default initializer. -/
def replayEvent (f : VmResources → SharedDeviceType → VmResources) (res : VmResources) :
    REvent → VmResources
  | REvent.legacy _ => res
  | REvent.balloon _ st => f res (SharedDeviceType.sharedBalloon st)
  | REvent.block _ st => f res (SharedDeviceType.sharedBlock st)
  | REvent.mmdsSet v inst => { res with mmds := some v, mmds_instance := some inst }
  | REvent.mmdsDefault => res.mmds_or_default
  | REvent.net _ st _ => f res (SharedDeviceType.sharedNetwork st)
  | REvent.vsock _ st => f res (SharedDeviceType.sharedVsock st)

/-- Replays the resource effects of a restore trace, in order. -/
def replay (f : VmResources → SharedDeviceType → VmResources) (res : VmResources)
    (evs : List REvent) : VmResources :=
  evs.foldl (replayEvent f) res

theorem replay_append (f : VmResources → SharedDeviceType → VmResources)
    (res : VmResources) (t1 t2 : List REvent) :
    replay f res (t1 ++ t2) = replay f (replay f res t1) t2 := by
  simp [replay, List.foldl_append]

theorem restoreLegacyLoop_events (l : List ConnectedLegacyState) : ∀ m,
    ∀ ev ∈ (restoreLegacyLoop m l).2, ∃ t, ev = REvent.legacy t := by
  induction l with
  | nil => intro m ev hev; cases hev
  | cons s rest ih =>
    intro m ev hev
    cases ht : s.type_ <;> simp only [restoreLegacyLoop, ht] at hev
    · cases hr : m.register_mmio_serial s.mmio_slot with
      | ok m' =>
        rw [hr] at hev
        simp only [List.mem_cons] at hev
        rcases hev with rfl | hev
        · exact ⟨_, rfl⟩
        · exact ih _ ev hev
      | error e =>
        rw [hr] at hev
        simp only [List.mem_singleton] at hev
        exact ⟨_, hev⟩
    · cases hr : m.register_mmio_rtc s.mmio_slot with
      | ok m' =>
        rw [hr] at hev
        simp only [List.mem_cons] at hev
        rcases hev with rfl | hev
        · exact ⟨_, rfl⟩
        · exact ih _ ev hev
      | error e =>
        rw [hr] at hev
        simp only [List.mem_singleton] at hev
        exact ⟨_, hev⟩
    · exact ih _ ev hev

theorem replay_of_legacy (f : VmResources → SharedDeviceType → VmResources)
    (t : List REvent) (h : ∀ ev ∈ t, ∃ ty, ev = REvent.legacy ty) :
    ∀ res, replay f res t = res := by
  induction t with
  | nil => intro res; rfl
  | cons ev rest ih =>
    intro res
    obtain ⟨ty, rfl⟩ := h ev (by simp)
    exact ih (fun x hx => h x (by simp [hx])) res

theorem restoreLegacyPhase_replay (f : VmResources → SharedDeviceType → VmResources)
    (m : MMIODeviceManager) (res : VmResources) (l : List ConnectedLegacyState) :
    (restoreLegacyPhase m res l).2.1 =
      replay f res (restoreLegacyPhase m res l).2.2 := by
  unfold restoreLegacyPhase
  exact (replay_of_legacy f _ (restoreLegacyLoop_events l m) res).symm

theorem restoreBalloonPhase_replay (f : VmResources → SharedDeviceType → VmResources)
    (m : MMIODeviceManager) (res : VmResources) (ob : Option ConnectedBalloonState) :
    (restoreBalloonPhase f m res ob).2.1 =
      replay f res (restoreBalloonPhase f m res ob).2.2 := by
  cases ob with
  | none => rfl
  | some b =>
    simp only [restoreBalloonPhase]
    cases h : restore_helper m b.device_id b.mmio_slot
        (BusDevice.balloon b.transport_state b.device_state) <;>
      simp [h, replay, replayEvent]

theorem restoreBlocksLoop_replay (f : VmResources → SharedDeviceType → VmResources)
    (l : List ConnectedBlockState) : ∀ m res,
    (restoreBlocksLoop f m res l).2.1 =
      replay f res (restoreBlocksLoop f m res l).2.2 := by
  induction l with
  | nil => intro m res; rfl
  | cons b rest ih =>
    intro m res
    simp only [restoreBlocksLoop]
    cases h : restore_helper m b.device_id b.mmio_slot
        (BusDevice.block b.transport_state b.device_state) with
    | ok m' => simpa [replay, replayEvent] using ih m' _
    | error e => simp [replay, replayEvent]

theorem restoreMmdsPhase_replay (f : VmResources → SharedDeviceType → VmResources)
    (instance_id : String) (nets : List ConnectedNetState) (m : MMIODeviceManager)
    (res : VmResources) (mv : Option MmdsVersionState) :
    (restoreMmdsPhase instance_id nets m res mv).2.1 =
      replay f res (restoreMmdsPhase instance_id nets m res mv).2.2 := by
  cases mv with
  | some v =>
    unfold restoreMmdsPhase VmResources.set_mmds_version
    cases h : res.set_rejects <;> simp [h, replay, replayEvent]
  | none =>
    unfold restoreMmdsPhase
    cases h : nets.any (fun d => d.device_state.mmds_ns.isSome) <;>
      simp [h, replay, replayEvent]

theorem restoreNetsLoop_replay (f : VmResources → SharedDeviceType → VmResources)
    (l : List ConnectedNetState) : ∀ m res,
    (restoreNetsLoop f m res l).2.1 =
      replay f res (restoreNetsLoop f m res l).2.2 := by
  induction l with
  | nil => intro m res; rfl
  | cons n rest ih =>
    intro m res
    simp only [restoreNetsLoop]
    cases h : restore_helper m n.device_id n.mmio_slot
        (BusDevice.net n.transport_state n.device_state) with
    | ok m' => simpa [replay, replayEvent] using ih m' _
    | error e => simp [replay, replayEvent]

theorem restoreVsockPhase_replay (f : VmResources → SharedDeviceType → VmResources)
    (m : MMIODeviceManager) (res : VmResources) (ov : Option ConnectedVsockState) :
    (restoreVsockPhase f m res ov).2.1 =
      replay f res (restoreVsockPhase f m res ov).2.2 := by
  cases ov with
  | none => rfl
  | some v =>
    simp only [restoreVsockPhase]
    cases h : restore_helper m v.device_id v.mmio_slot
        (BusDevice.vsock v.transport_state v.device_state false true) <;>
      simp [h, replay, replayEvent]

theorem pseq_replay (f : VmResources → SharedDeviceType → VmResources)
    (r : PhaseOut) (k : MMIODeviceManager → VmResources → PhaseOut) (res : VmResources)
    (hr : r.2.1 = replay f res r.2.2)
    (hk : ∀ m res1, (k m res1).2.1 = replay f res1 (k m res1).2.2) :
    (pseq r k).2.1 = replay f res (pseq r k).2.2 := by
  rcases r with ⟨r1, res', tr⟩
  cases r1 with
  | ok m =>
    simp only [pseq, replay_append]
    simp only at hr
    rw [← hr]
    exact hk m res'
  | error e => exact hr

/-- C2 (amended): restore does not roll VMM state back on failure — the
final state of the caller-supplied `VmResources`, whether restore
returns success or an error, is exactly the replay of the per-device
callback invocations and MMDS updates recorded in the trace up to the
point restore stopped.  (The partially constructed manager and its
devices are dropped on error: the error result carries no manager.) -/
theorem restore_resources_are_trace_replay (args : MMIODevManagerConstructorArgs)
    (state : DeviceStates) :
    (MMIODeviceManager.restore args state).2.1 =
      replay args.for_each_restored_device args.vm_resources
        (MMIODeviceManager.restore args state).2.2 := by
  simp only [MMIODeviceManager.restore]
  apply pseq_replay
  · exact restoreLegacyPhase_replay _ _ _ _
  · intro m1 res1
    apply pseq_replay
    · exact restoreBalloonPhase_replay _ _ _ _
    · intro m2 res2
      apply pseq_replay
      · exact restoreBlocksLoop_replay _ _ _ _
      · intro m3 res3
        apply pseq_replay
        · exact restoreMmdsPhase_replay _ _ _ _ _ _
        · intro m4 res4
          apply pseq_replay
          · exact restoreNetsLoop_replay _ _ _ _
          · intro m5 res5
            exact restoreVsockPhase_replay _ _ _ _

/-- Fresh `VmResources` with nothing configured and a non-rejecting
MMDS setter. -/
def freshResources : VmResources :=
  { mmds := none, mmds_instance := none, set_rejects := false,
    balloon_cfg := none, block_cfgs := [], net_cfgs := [], vsock_cfg := none }

/-- Restore arguments using the standard
`update_from_restored_device` callback and `freshResources`. -/
def standardArgs : MMIODevManagerConstructorArgs :=
  { mem := 0, for_each_restored_device := VmResources.update_from_restored_device,
    vm_resources := freshResources, instance_id := "microvm-id" }

/-- A balloon record naming an IRQ outside the platform IRQ range. -/
def badBalloonRec : ConnectedBalloonState :=
  { device_id := "balloon0", device_state := 5, transport_state := 1,
    mmio_slot := { addr := 0xd0000000, len := 0x1000, irq := 99 } }

/-- A `DeviceStates` whose balloon record names an IRQ outside the
platform IRQ range, so its registration fails the slot sanity check. -/
def badBalloonStates : DeviceStates :=
  { DeviceStates.empty with balloon_device := some badBalloonRec }

/-- Counterexample to C2 as stated: restoring `badBalloonStates` fails
with a `DeviceManager` error, yet the caller-supplied `VmResources` has
been mutated — the balloon callback ran before the failing registration,
so the balloon configuration is already mirrored. -/
theorem restore_error_resources_mutated_counterexample :
    (MMIODeviceManager.restore standardArgs badBalloonStates).1 =
        Except.error Error.DeviceManager ∧
      ¬ (MMIODeviceManager.restore standardArgs badBalloonStates).2.1 =
        standardArgs.vm_resources := by
  constructor
  · rfl
  · decide

/-- The phase a restore event belongs to, numbered in the order the
source's restore traversal runs them: legacy devices, balloon, block
devices, MMDS reconciliation, net devices, vsock. -/
def phaseRank : REvent → Nat
  | REvent.legacy _ => 0
  | REvent.balloon _ _ => 1
  | REvent.block _ _ => 2
  | REvent.mmdsSet _ _ => 3
  | REvent.mmdsDefault => 3
  | REvent.net _ _ _ => 4
  | REvent.vsock _ _ => 5

/-- The phase order C3 claims, following the order in which the
`DeviceStates` record lists its fields: legacy devices, block devices,
net devices, vsock, balloon, MMDS version. -/
def recordOrderRank : REvent → Nat
  | REvent.legacy _ => 0
  | REvent.block _ _ => 1
  | REvent.net _ _ _ => 2
  | REvent.vsock _ _ => 3
  | REvent.balloon _ _ => 4
  | REvent.mmdsSet _ _ => 5
  | REvent.mmdsDefault => 5

theorem restoreLegacyPhase_rank (m : MMIODeviceManager) (res : VmResources)
    (l : List ConnectedLegacyState) :
    ∀ ev ∈ (restoreLegacyPhase m res l).2.2, phaseRank ev = 0 := by
  intro ev hev
  obtain ⟨t, rfl⟩ := restoreLegacyLoop_events l m ev hev
  rfl

theorem restoreBalloonPhase_rank (f : VmResources → SharedDeviceType → VmResources)
    (m : MMIODeviceManager) (res : VmResources) (ob : Option ConnectedBalloonState) :
    ∀ ev ∈ (restoreBalloonPhase f m res ob).2.2, phaseRank ev = 1 := by
  intro ev hev
  cases ob with
  | none => cases hev
  | some b =>
    simp only [restoreBalloonPhase] at hev
    cases h : restore_helper m b.device_id b.mmio_slot
        (BusDevice.balloon b.transport_state b.device_state) <;>
      rw [h] at hev <;> simp at hev <;> subst hev <;> rfl

theorem restoreBlocksLoop_rank (f : VmResources → SharedDeviceType → VmResources)
    (l : List ConnectedBlockState) : ∀ m res,
    ∀ ev ∈ (restoreBlocksLoop f m res l).2.2, phaseRank ev = 2 := by
  induction l with
  | nil => intro m res ev hev; cases hev
  | cons b rest ih =>
    intro m res ev hev
    simp only [restoreBlocksLoop] at hev
    cases h : restore_helper m b.device_id b.mmio_slot
        (BusDevice.block b.transport_state b.device_state) with
    | ok m' =>
      rw [h] at hev
      simp only [List.mem_cons] at hev
      rcases hev with rfl | hev
      · rfl
      · exact ih m' _ ev hev
    | error e =>
      rw [h] at hev
      simp only [List.mem_singleton] at hev
      subst hev
      rfl

theorem restoreMmdsPhase_rank (instance_id : String) (nets : List ConnectedNetState)
    (m : MMIODeviceManager) (res : VmResources) (mv : Option MmdsVersionState) :
    ∀ ev ∈ (restoreMmdsPhase instance_id nets m res mv).2.2, phaseRank ev = 3 := by
  intro ev hev
  cases mv with
  | some v =>
    simp only [restoreMmdsPhase, VmResources.set_mmds_version] at hev
    cases h : res.set_rejects <;> rw [h] at hev <;> simp at hev
    subst hev
    rfl
  | none =>
    simp only [restoreMmdsPhase] at hev
    cases h : nets.any (fun d => d.device_state.mmds_ns.isSome) <;>
      rw [h] at hev <;> simp at hev
    subst hev
    rfl

theorem restoreNetsLoop_rank (f : VmResources → SharedDeviceType → VmResources)
    (l : List ConnectedNetState) : ∀ m res,
    ∀ ev ∈ (restoreNetsLoop f m res l).2.2, phaseRank ev = 4 := by
  induction l with
  | nil => intro m res ev hev; cases hev
  | cons n rest ih =>
    intro m res ev hev
    simp only [restoreNetsLoop] at hev
    cases h : restore_helper m n.device_id n.mmio_slot
        (BusDevice.net n.transport_state n.device_state) with
    | ok m' =>
      rw [h] at hev
      simp only [List.mem_cons] at hev
      rcases hev with rfl | hev
      · rfl
      · exact ih m' _ ev hev
    | error e =>
      rw [h] at hev
      simp only [List.mem_singleton] at hev
      subst hev
      rfl

theorem restoreVsockPhase_rank (f : VmResources → SharedDeviceType → VmResources)
    (m : MMIODeviceManager) (res : VmResources) (ov : Option ConnectedVsockState) :
    ∀ ev ∈ (restoreVsockPhase f m res ov).2.2, phaseRank ev = 5 := by
  intro ev hev
  cases ov with
  | none => cases hev
  | some v =>
    simp only [restoreVsockPhase] at hev
    cases h : restore_helper m v.device_id v.mmio_slot
        (BusDevice.vsock v.transport_state v.device_state false true) <;>
      rw [h] at hev <;> simp at hev <;> subst hev <;> rfl

theorem pairwise_map_of_const (l : List REvent) (c : Nat)
    (h : ∀ ev ∈ l, phaseRank ev = c) :
    List.Pairwise (· ≤ ·) (l.map phaseRank) := by
  induction l with
  | nil => simp
  | cons a t ih =>
    simp only [List.map_cons, List.pairwise_cons]
    constructor
    · intro b hb
      simp only [List.mem_map] at hb
      obtain ⟨ev, hev, rfl⟩ := hb
      rw [h a (by simp), h ev (by simp [hev])]
    · exact ih (fun ev hev => h ev (by simp [hev]))

theorem pseq_sorted (r : PhaseOut) (k : MMIODeviceManager → VmResources → PhaseOut)
    (ka kb : Nat) (hab : ka ≤ kb)
    (hr : ∀ ev ∈ r.2.2, phaseRank ev = ka)
    (hk : ∀ m res1,
      List.Pairwise (· ≤ ·) (((k m res1).2.2).map phaseRank) ∧
      ∀ ev ∈ (k m res1).2.2, kb ≤ phaseRank ev) :
    List.Pairwise (· ≤ ·) (((pseq r k).2.2).map phaseRank) ∧
    ∀ ev ∈ (pseq r k).2.2, ka ≤ phaseRank ev := by
  rcases r with ⟨r1, res', tr⟩
  cases r1 with
  | error e =>
    refine ⟨pairwise_map_of_const tr ka hr, fun ev hev => le_of_eq (hr ev hev).symm⟩
  | ok m =>
    simp only [pseq, List.map_append]
    constructor
    · rw [List.pairwise_append]
      refine ⟨pairwise_map_of_const tr ka hr, (hk m res').1, ?_⟩
      intro x hx y hy
      simp only [List.mem_map] at hx hy
      obtain ⟨ex, hex, rfl⟩ := hx
      obtain ⟨ey, hey, rfl⟩ := hy
      exact le_trans (le_of_eq (hr ex hex)) (le_trans hab ((hk m res').2 ey hey))
    · intro ev hev
      simp only [List.mem_append] at hev
      rcases hev with hev | hev
      · exact le_of_eq (hr ev hev).symm
      · exact le_trans hab ((hk m res').2 ev hev)

theorem restore_trace_ranks (args : MMIODevManagerConstructorArgs)
    (state : DeviceStates) :
    List.Pairwise (· ≤ ·)
      (((MMIODeviceManager.restore args state).2.2).map phaseRank) := by
  simp only [MMIODeviceManager.restore]
  refine (pseq_sorted _ _ 0 1 (by omega) (restoreLegacyPhase_rank _ _ _) ?_).1
  intro m1 res1
  refine pseq_sorted _ _ 1 2 (by omega) (restoreBalloonPhase_rank _ _ _ _) ?_
  intro m2 res2
  refine pseq_sorted _ _ 2 3 (by omega) (restoreBlocksLoop_rank _ _ _ _) ?_
  intro m3 res3
  refine pseq_sorted _ _ 3 4 (by omega) (restoreMmdsPhase_rank _ _ _ _ _) ?_
  intro m4 res4
  refine pseq_sorted _ _ 4 5 (by omega) (restoreNetsLoop_rank _ _ _ _) ?_
  intro m5 res5
  refine ⟨pairwise_map_of_const _ 5 (restoreVsockPhase_rank _ _ _ _), ?_⟩
  intro ev hev
  exact le_of_eq (restoreVsockPhase_rank _ _ _ _ ev hev).symm

/-- C3 (amended): the restore traversal processes the `DeviceStates`
fields in the source's fixed order — legacy_devices, then
balloon_device, then block_devices, then mmds_version, then
net_devices, then vsock_device: in every restore trace the phase ranks
of the emitted events are nondecreasing under that order. -/
theorem restore_trace_phase_order (args : MMIODevManagerConstructorArgs)
    (state : DeviceStates) :
    List.Pairwise (· ≤ ·)
      (((MMIODeviceManager.restore args state).2.2).map phaseRank) :=
  restore_trace_ranks args state

/-- A concrete block record with a valid slot. -/
def connectedBlock0 : ConnectedBlockState :=
  { device_id := "root", device_state := 200, transport_state := 11,
    mmio_slot := { addr := 0xd0001000, len := 0x1000, irq := 6 } }

/-- A `DeviceStates` with one balloon and one block device. -/
def balloonBlockStates : DeviceStates :=
  { DeviceStates.empty with
      balloon_device := some connectedBalloon0,
      block_devices := [connectedBlock0] }

/-- Counterexample to C3 as stated: restoring a snapshot with a balloon
and a block device processes the balloon before the block device, so the
trace does not follow the record's field order (legacy, block, net,
vsock, balloon, mmds_version). -/
theorem restore_record_order_counterexample :
    ¬ List.Pairwise (· ≤ ·)
      (((MMIODeviceManager.restore standardArgs balloonBlockStates).2.2).map
        recordOrderRank) := by
  decide

/-- The directory entry restore registers for a legacy record, if any
(records with other types are skipped). -/
def legacyEntryOf (s : ConnectedLegacyState) : Option DeviceEntry :=
  match s.type_ with
  | DeviceType.serial =>
    some { devid := serialDeviceId, devinfo := s.mmio_slot, dev := BusDevice.serial }
  | DeviceType.rtc =>
    some { devid := rtcDeviceId, devinfo := s.mmio_slot, dev := BusDevice.rtc }
  | DeviceType.bootTimer => none

/-- The directory entry restore registers for a balloon record. -/
def balloonEntryOf (b : ConnectedBalloonState) : DeviceEntry :=
  { devid := b.device_id, devinfo := b.mmio_slot,
    dev := BusDevice.balloon b.transport_state b.device_state }

/-- The directory entry restore registers for a block record. -/
def blockEntryOf (b : ConnectedBlockState) : DeviceEntry :=
  { devid := b.device_id, devinfo := b.mmio_slot,
    dev := BusDevice.block b.transport_state b.device_state }

/-- The directory entry restore registers for a net record. -/
def netEntryOf (n : ConnectedNetState) : DeviceEntry :=
  { devid := n.device_id, devinfo := n.mmio_slot,
    dev := BusDevice.net n.transport_state n.device_state }

/-- The directory entry restore registers for a vsock record. -/
def vsockEntryOf (v : ConnectedVsockState) : DeviceEntry :=
  { devid := v.device_id, devinfo := v.mmio_slot,
    dev := BusDevice.vsock v.transport_state v.device_state false true }

/-- The directory entries a successful restore registers, in
registration order: legacy devices, balloon, blocks, nets, vsock. -/
def restoredEntries (state : DeviceStates) : List DeviceEntry :=
  state.legacy_devices.filterMap legacyEntryOf ++
  state.balloon_device.toList.map balloonEntryOf ++
  state.block_devices.map blockEntryOf ++
  state.net_devices.map netEntryOf ++
  state.vsock_device.toList.map vsockEntryOf

theorem restoreLegacyLoop_ok_entries (l : List ConnectedLegacyState) : ∀ m m',
    (restoreLegacyLoop m l).1 = Except.ok m' →
    m' = { m with entries := m.entries ++ l.filterMap legacyEntryOf } := by
  induction l with
  | nil =>
    intro m m' h
    simp only [restoreLegacyLoop] at h
    cases h
    simp
  | cons s rest ih =>
    intro m m' h
    cases ht : s.type_ <;>
      simp only [restoreLegacyLoop, ht, MMIODeviceManager.register_mmio_serial,
        MMIODeviceManager.register_mmio_rtc] at h
    · by_cases hc : m.slot_sanity_check s.mmio_slot = true
      · rw [if_pos hc] at h
        have := ih _ _ h
        subst this
        simp [MMIODeviceManager.register, legacyEntryOf, ht]
      · rw [if_neg hc] at h
        cases h
    · by_cases hc : m.slot_sanity_check s.mmio_slot = true
      · rw [if_pos hc] at h
        have := ih _ _ h
        subst this
        simp [MMIODeviceManager.register, legacyEntryOf, ht]
      · rw [if_neg hc] at h
        cases h
    · have := ih _ _ h
      subst this
      simp [legacyEntryOf, ht]

theorem restore_helper_ok (m : MMIODeviceManager) (id : String) (slot : MMIODeviceInfo)
    (dev : BusDevice) (m' : MMIODeviceManager)
    (h : restore_helper m id slot dev = Except.ok m') :
    m' = { m with entries := m.entries ++ [{ devid := id, devinfo := slot, dev := dev }] } := by
  simp only [restore_helper] at h
  by_cases hc : m.slot_sanity_check slot = true
  · rw [if_pos hc] at h
    cases h
    rfl
  · rw [if_neg hc] at h
    cases h

theorem restoreBalloonPhase_ok_entries (f : VmResources → SharedDeviceType → VmResources)
    (m : MMIODeviceManager) (res : VmResources) (ob : Option ConnectedBalloonState)
    (m' : MMIODeviceManager) (h : (restoreBalloonPhase f m res ob).1 = Except.ok m') :
    m' = { m with entries := m.entries ++ ob.toList.map balloonEntryOf } := by
  cases ob with
  | none =>
    simp only [restoreBalloonPhase] at h
    cases h
    simp
  | some b =>
    simp only [restoreBalloonPhase] at h
    cases hh : restore_helper m b.device_id b.mmio_slot
        (BusDevice.balloon b.transport_state b.device_state) with
    | ok m1 =>
      rw [hh] at h
      cases h
      simpa [balloonEntryOf] using restore_helper_ok _ _ _ _ _ hh
    | error e =>
      rw [hh] at h
      cases h

theorem restoreBlocksLoop_ok_entries (f : VmResources → SharedDeviceType → VmResources)
    (l : List ConnectedBlockState) : ∀ m res m',
    (restoreBlocksLoop f m res l).1 = Except.ok m' →
    m' = { m with entries := m.entries ++ l.map blockEntryOf } := by
  induction l with
  | nil =>
    intro m res m' h
    simp only [restoreBlocksLoop] at h
    cases h
    simp
  | cons b rest ih =>
    intro m res m' h
    simp only [restoreBlocksLoop] at h
    cases hh : restore_helper m b.device_id b.mmio_slot
        (BusDevice.block b.transport_state b.device_state) with
    | ok m1 =>
      rw [hh] at h
      have := ih m1 _ _ h
      subst this
      rw [restore_helper_ok _ _ _ _ _ hh]
      simp [blockEntryOf]
    | error e =>
      rw [hh] at h
      cases h

theorem restoreMmdsPhase_ok_entries (instance_id : String) (nets : List ConnectedNetState)
    (m : MMIODeviceManager) (res : VmResources) (mv : Option MmdsVersionState)
    (m' : MMIODeviceManager) (h : (restoreMmdsPhase instance_id nets m res mv).1 = Except.ok m') :
    m' = m := by
  cases mv with
  | some v =>
    simp only [restoreMmdsPhase, VmResources.set_mmds_version] at h
    cases hr : res.set_rejects <;> rw [hr] at h <;> simp at h
    exact h.symm
  | none =>
    simp only [restoreMmdsPhase] at h
    cases hn : nets.any (fun d => d.device_state.mmds_ns.isSome) <;>
      rw [hn] at h <;> simp at h <;> exact h.symm

theorem restoreNetsLoop_ok_entries (f : VmResources → SharedDeviceType → VmResources)
    (l : List ConnectedNetState) : ∀ m res m',
    (restoreNetsLoop f m res l).1 = Except.ok m' →
    m' = { m with entries := m.entries ++ l.map netEntryOf } := by
  induction l with
  | nil =>
    intro m res m' h
    simp only [restoreNetsLoop] at h
    cases h
    simp
  | cons n rest ih =>
    intro m res m' h
    simp only [restoreNetsLoop] at h
    cases hh : restore_helper m n.device_id n.mmio_slot
        (BusDevice.net n.transport_state n.device_state) with
    | ok m1 =>
      rw [hh] at h
      have := ih m1 _ _ h
      subst this
      rw [restore_helper_ok _ _ _ _ _ hh]
      simp [netEntryOf]
    | error e =>
      rw [hh] at h
      cases h

theorem restoreVsockPhase_ok_entries (f : VmResources → SharedDeviceType → VmResources)
    (m : MMIODeviceManager) (res : VmResources) (ov : Option ConnectedVsockState)
    (m' : MMIODeviceManager) (h : (restoreVsockPhase f m res ov).1 = Except.ok m') :
    m' = { m with entries := m.entries ++ ov.toList.map vsockEntryOf } := by
  cases ov with
  | none =>
    simp only [restoreVsockPhase] at h
    cases h
    simp
  | some v =>
    simp only [restoreVsockPhase] at h
    cases hh : restore_helper m v.device_id v.mmio_slot
        (BusDevice.vsock v.transport_state v.device_state false true) with
    | ok m1 =>
      rw [hh] at h
      cases h
      simpa [vsockEntryOf] using restore_helper_ok _ _ _ _ _ hh
    | error e =>
      rw [hh] at h
      cases h

theorem pseq_eq_of_ok (r : PhaseOut) (k : MMIODeviceManager → VmResources → PhaseOut)
    (M : MMIODeviceManager) (h : (pseq r k).1 = Except.ok M) :
    ∃ m, r.1 = Except.ok m ∧ (k m r.2.1).1 = Except.ok M ∧
      (pseq r k).2.2 = r.2.2 ++ (k m r.2.1).2.2 := by
  rcases r with ⟨r1, res', tr⟩
  cases r1 with
  | ok m => exact ⟨m, rfl, h, rfl⟩
  | error e => cases h

/-- On success, the restored manager is seeded with the platform MMIO
base and IRQ range and holds exactly the entries of `restoredEntries`,
in registration order. -/
theorem restore_ok_entries (args : MMIODevManagerConstructorArgs) (state : DeviceStates)
    (M : MMIODeviceManager) (h : (MMIODeviceManager.restore args state).1 = Except.ok M) :
    M = { mmio_base := MMIO_MEM_START, irq_first := IRQ_BASE, irq_last := IRQ_MAX,
          entries := restoredEntries state } := by
  simp only [MMIODeviceManager.restore] at h
  obtain ⟨m1, h1, h, _⟩ := pseq_eq_of_ok _ _ _ h
  obtain ⟨m2, h2, h, _⟩ := pseq_eq_of_ok _ _ _ h
  obtain ⟨m3, h3, h, _⟩ := pseq_eq_of_ok _ _ _ h
  obtain ⟨m4, h4, h, _⟩ := pseq_eq_of_ok _ _ _ h
  obtain ⟨m5, h5, h, _⟩ := pseq_eq_of_ok _ _ _ h
  have e1 := restoreLegacyLoop_ok_entries _ _ _ h1
  have e2 := restoreBalloonPhase_ok_entries _ _ _ _ _ h2
  have e3 := restoreBlocksLoop_ok_entries _ _ _ _ _ h3
  have e4 := restoreMmdsPhase_ok_entries _ _ _ _ _ _ h4
  have e5 := restoreNetsLoop_ok_entries _ _ _ _ _ h5
  have e6 := restoreVsockPhase_ok_entries _ _ _ _ _ h
  subst e1 e2 e3 e4 e5 e6
  simp [MMIODeviceManager.new, restoredEntries]

/-- The device id of a directory entry when it is a block device. -/
def blockIdOf (e : DeviceEntry) : Option String :=
  match e.dev with
  | BusDevice.block _ _ => some e.devid
  | _ => none

/-- The device id of a directory entry when it is a net device. -/
def netIdOf (e : DeviceEntry) : Option String :=
  match e.dev with
  | BusDevice.net _ _ => some e.devid
  | _ => none

theorem blockRecOf_ids (es : List DeviceEntry) :
    (es.filterMap blockRecOf).map ConnectedBlockState.device_id =
      es.filterMap blockIdOf := by
  induction es with
  | nil => rfl
  | cons e rest ih =>
    cases e with
    | mk devid devinfo dev =>
      cases dev <;> simp [blockRecOf, blockIdOf, ih]

theorem netRecOf_ids (es : List DeviceEntry) :
    (es.filterMap netRecOf).map ConnectedNetState.device_id =
      es.filterMap netIdOf := by
  induction es with
  | nil => rfl
  | cons e rest ih =>
    cases e with
    | mk devid devinfo dev =>
      cases dev <;> simp [netRecOf, netIdOf, ih]

theorem restoredEntries_blockIds (state : DeviceStates) :
    (restoredEntries state).filterMap blockIdOf =
      state.block_devices.map ConnectedBlockState.device_id := by
  have hleg : (state.legacy_devices.filterMap legacyEntryOf).filterMap blockIdOf = [] := by
    rw [List.filterMap_eq_nil_iff]
    intro a ha
    obtain ⟨s, _, hs⟩ := List.mem_filterMap.1 ha
    cases ht : s.type_ <;> simp [legacyEntryOf, ht] at hs <;>
      simp [← hs, blockIdOf]
  have hbal : (state.balloon_device.toList.map balloonEntryOf).filterMap blockIdOf = [] := by
    cases state.balloon_device <;> simp [balloonEntryOf, blockIdOf]
  have hnet : (state.net_devices.map netEntryOf).filterMap blockIdOf = [] := by
    rw [List.filterMap_eq_nil_iff]
    intro a ha
    obtain ⟨n, _, rfl⟩ := List.mem_map.1 ha
    simp [netEntryOf, blockIdOf]
  have hvs : (state.vsock_device.toList.map vsockEntryOf).filterMap blockIdOf = [] := by
    cases state.vsock_device <;> simp [vsockEntryOf, blockIdOf]
  have hblk : (state.block_devices.map blockEntryOf).filterMap blockIdOf =
      state.block_devices.map ConnectedBlockState.device_id := by
    induction state.block_devices with
    | nil => rfl
    | cons b rest ih => simp [blockEntryOf, blockIdOf, ih]
  simp [restoredEntries, List.filterMap_append, hleg, hbal, hnet, hvs, hblk]

theorem restoredEntries_netIds (state : DeviceStates) :
    (restoredEntries state).filterMap netIdOf =
      state.net_devices.map ConnectedNetState.device_id := by
  have hleg : (state.legacy_devices.filterMap legacyEntryOf).filterMap netIdOf = [] := by
    rw [List.filterMap_eq_nil_iff]
    intro a ha
    obtain ⟨s, _, hs⟩ := List.mem_filterMap.1 ha
    cases ht : s.type_ <;> simp [legacyEntryOf, ht] at hs <;>
      simp [← hs, netIdOf]
  have hbal : (state.balloon_device.toList.map balloonEntryOf).filterMap netIdOf = [] := by
    cases state.balloon_device <;> simp [balloonEntryOf, netIdOf]
  have hblk : (state.block_devices.map blockEntryOf).filterMap netIdOf = [] := by
    rw [List.filterMap_eq_nil_iff]
    intro a ha
    obtain ⟨b, _, rfl⟩ := List.mem_map.1 ha
    simp [blockEntryOf, netIdOf]
  have hvs : (state.vsock_device.toList.map vsockEntryOf).filterMap netIdOf = [] := by
    cases state.vsock_device <;> simp [vsockEntryOf, netIdOf]
  have hnet : (state.net_devices.map netEntryOf).filterMap netIdOf =
      state.net_devices.map ConnectedNetState.device_id := by
    induction state.net_devices with
    | nil => rfl
    | cons n rest ih => simp [netEntryOf, netIdOf, ih]
  simp [restoredEntries, List.filterMap_append, hleg, hbal, hblk, hvs, hnet]

/-- C8: within a snapshot the `block_devices` and `net_devices`
sequences list the live block (resp. net) devices in directory insertion
order, and a successful restore registers the devices of each of these
kinds in exactly that sequence order, so guest-visible device indexing
is stable across a snapshot/restore cycle. -/
theorem block_net_order_stable (m : MMIODeviceManager)
    (args : MMIODevManagerConstructorArgs) (M : MMIODeviceManager)
    (h : (MMIODeviceManager.restore args (m.save).1).1 = Except.ok M) :
    (m.save).1.block_devices.map ConnectedBlockState.device_id =
        m.entries.filterMap blockIdOf ∧
    (m.save).1.net_devices.map ConnectedNetState.device_id =
        m.entries.filterMap netIdOf ∧
    M.entries.filterMap blockIdOf =
        (m.save).1.block_devices.map ConnectedBlockState.device_id ∧
    M.entries.filterMap netIdOf =
        (m.save).1.net_devices.map ConnectedNetState.device_id := by
  have hblk : (m.save).1.block_devices = m.entries.filterMap blockRecOf := by
    simp [MMIODeviceManager.save, saveLoop_blocks, DeviceStates.empty]
  have hnet : (m.save).1.net_devices = m.entries.filterMap netRecOf := by
    simp [MMIODeviceManager.save, saveLoop_nets, DeviceStates.empty]
  have hM := restore_ok_entries _ _ _ h
  refine ⟨?_, ?_, ?_, ?_⟩
  · rw [hblk, blockRecOf_ids]
  · rw [hnet, netRecOf_ids]
  · rw [hM]
    exact restoredEntries_blockIds _
  · rw [hM]
    exact restoredEntries_netIds _

/-- A live directory with three block devices and one net device, in a
fixed insertion order. -/
def orderWitnessM : MMIODeviceManager :=
  { mmio_base := MMIO_MEM_START, irq_first := IRQ_BASE, irq_last := IRQ_MAX,
    entries := [
      { devid := "a", devinfo := { addr := 0xd0000000, len := 0x1000, irq := 5 },
        dev := BusDevice.block 1 10 },
      { devid := "b", devinfo := { addr := 0xd0001000, len := 0x1000, irq := 6 },
        dev := BusDevice.block 2 20 },
      { devid := "netif", devinfo := { addr := 0xd0002000, len := 0x1000, irq := 7 },
        dev := BusDevice.net 3 { payload := 7, mmds_ns := none } },
      { devid := "c", devinfo := { addr := 0xd0003000, len := 0x1000, irq := 8 },
        dev := BusDevice.block 4 30 } ] }

/-- The manager a successful restore of `orderWitnessM`'s snapshot
produces. -/
def orderWitnessRestored : MMIODeviceManager :=
  { mmio_base := MMIO_MEM_START, irq_first := IRQ_BASE, irq_last := IRQ_MAX,
    entries := restoredEntries (orderWitnessM.save).1 }

/-- Witness for `block_net_order_stable` on a concrete directory with
blocks "a", "b", "c" and one net device. -/
theorem block_net_order_stable_witness :
    (orderWitnessM.save).1.block_devices.map ConnectedBlockState.device_id =
        orderWitnessM.entries.filterMap blockIdOf ∧
    (orderWitnessM.save).1.net_devices.map ConnectedNetState.device_id =
        orderWitnessM.entries.filterMap netIdOf ∧
    orderWitnessRestored.entries.filterMap blockIdOf =
        (orderWitnessM.save).1.block_devices.map ConnectedBlockState.device_id ∧
    orderWitnessRestored.entries.filterMap netIdOf =
        (orderWitnessM.save).1.net_devices.map ConnectedNetState.device_id :=
  block_net_order_stable orderWitnessM standardArgs orderWitnessRestored (by decide)

/-- Whether a restore event is an MMDS reconciliation action. -/
def isMmdsEv : REvent → Bool
  | REvent.mmdsSet _ _ => true
  | REvent.mmdsDefault => true
  | _ => false

/-- Whether a restore event is a net-device construction. -/
def isNetEv : REvent → Bool
  | REvent.net _ _ _ => true
  | _ => false

theorem isMmdsEv_iff_rank (ev : REvent) : isMmdsEv ev = true ↔ phaseRank ev = 3 := by
  cases ev <;> simp [isMmdsEv, phaseRank]

theorem isNetEv_rank (ev : REvent) (h : isNetEv ev = true) : phaseRank ev = 4 := by
  cases ev <;> simp [isNetEv] at h <;> rfl

theorem filter_mmds_nil_of_rank (t : List REvent) (k : Nat) (hk : ¬ k = 3)
    (h : ∀ ev ∈ t, phaseRank ev = k) : t.filter isMmdsEv = [] := by
  rw [List.filter_eq_nil_iff]
  intro ev hev
  intro hmm
  exact hk ((isMmdsEv_iff_rank ev).1 hmm ▸ (h ev hev).symm ▸ rfl)

theorem restoreMmdsPhase_ok_some_trace (instance_id : String)
    (nets : List ConnectedNetState) (m : MMIODeviceManager) (res : VmResources)
    (v : MmdsVersionState) (m' : MMIODeviceManager)
    (h : (restoreMmdsPhase instance_id nets m res (some v)).1 = Except.ok m') :
    (restoreMmdsPhase instance_id nets m res (some v)).2.2 =
      [REvent.mmdsSet v instance_id] := by
  simp only [restoreMmdsPhase, VmResources.set_mmds_version] at h ⊢
  cases hr : res.set_rejects <;> rw [hr] at h <;> simp at h <;> simp [hr]

theorem restoreMmdsPhase_none_any_trace (instance_id : String)
    (nets : List ConnectedNetState) (m : MMIODeviceManager) (res : VmResources)
    (ha : nets.any (fun d => d.device_state.mmds_ns.isSome) = true) :
    (restoreMmdsPhase instance_id nets m res none).2.2 = [REvent.mmdsDefault] := by
  simp [restoreMmdsPhase, ha]

theorem restoreMmdsPhase_none_none_trace (instance_id : String)
    (nets : List ConnectedNetState) (m : MMIODeviceManager) (res : VmResources)
    (ha : nets.any (fun d => d.device_state.mmds_ns.isSome) = false) :
    (restoreMmdsPhase instance_id nets m res none).2.2 = [] := by
  simp [restoreMmdsPhase, ha]

/-- C6: during a successful restore exactly one of three MMDS outcomes
is recorded, and it happens before any net device is constructed: when
`state.mmds_version` is `Some v` the MMDS version is set to `v` scoped
to the instance id; otherwise, when at least one entry of
`state.net_devices` declares an MMDS namespace, the data store is
initialized with the default; otherwise no MMDS action occurs.  No MMDS
action ever follows a net-device construction in the trace, and when the
setter rejects (shown here with no records before the MMDS step, so the
setter sees the caller's resources) restore fails with `MmdsConfig`. -/
theorem restore_mmds_before_nets (args : MMIODevManagerConstructorArgs)
    (state : DeviceStates) :
    (∀ M v, (MMIODeviceManager.restore args state).1 = Except.ok M →
      state.mmds_version = some v →
      ((MMIODeviceManager.restore args state).2.2).filter isMmdsEv =
        [REvent.mmdsSet v args.instance_id]) ∧
    (∀ M, (MMIODeviceManager.restore args state).1 = Except.ok M →
      state.mmds_version = none →
      (∃ d ∈ state.net_devices, d.device_state.mmds_ns.isSome) →
      ((MMIODeviceManager.restore args state).2.2).filter isMmdsEv =
        [REvent.mmdsDefault]) ∧
    (∀ M, (MMIODeviceManager.restore args state).1 = Except.ok M →
      state.mmds_version = none →
      (∀ d ∈ state.net_devices, d.device_state.mmds_ns = none) →
      ((MMIODeviceManager.restore args state).2.2).filter isMmdsEv = []) ∧
    List.Pairwise (fun a b => isNetEv a = true → isMmdsEv b = false)
      ((MMIODeviceManager.restore args state).2.2) ∧
    (state.legacy_devices = [] → state.balloon_device = none →
      state.block_devices = [] → ∀ v, state.mmds_version = some v →
      args.vm_resources.set_rejects = true →
      (MMIODeviceManager.restore args state).1 = Except.error Error.MmdsConfig) := by
  refine ⟨?_, ?_, ?_, ?_, ?_⟩
  · intro M v hok hv
    simp only [MMIODeviceManager.restore] at hok ⊢
    obtain ⟨m1, h1, hok, t1⟩ := pseq_eq_of_ok _ _ _ hok
    rw [t1]
    obtain ⟨m2, h2, hok, t2⟩ := pseq_eq_of_ok _ _ _ hok
    rw [t2]
    obtain ⟨m3, h3, hok, t3⟩ := pseq_eq_of_ok _ _ _ hok
    rw [t3]
    obtain ⟨m4, h4, hok, t4⟩ := pseq_eq_of_ok _ _ _ hok
    rw [t4]
    obtain ⟨m5, h5, hok, t5⟩ := pseq_eq_of_ok _ _ _ hok
    rw [t5]
    rw [hv] at h4 ⊢
    simp only [List.filter_append]
    rw [filter_mmds_nil_of_rank _ 0 (by omega) (restoreLegacyPhase_rank _ _ _),
      filter_mmds_nil_of_rank _ 1 (by omega) (restoreBalloonPhase_rank _ _ _ _),
      filter_mmds_nil_of_rank _ 2 (by omega) (restoreBlocksLoop_rank _ _ _ _),
      filter_mmds_nil_of_rank _ 4 (by omega) (restoreNetsLoop_rank _ _ _ _),
      filter_mmds_nil_of_rank _ 5 (by omega) (restoreVsockPhase_rank _ _ _ _),
      restoreMmdsPhase_ok_some_trace _ _ _ _ _ _ h4]
    simp [isMmdsEv]
  · intro M hok hv hany
    have hany' : state.net_devices.any (fun d => d.device_state.mmds_ns.isSome) = true := by
      rw [List.any_eq_true]
      obtain ⟨d, hd, hs⟩ := hany
      exact ⟨d, hd, hs⟩
    simp only [MMIODeviceManager.restore] at hok ⊢
    obtain ⟨m1, h1, hok, t1⟩ := pseq_eq_of_ok _ _ _ hok
    rw [t1]
    obtain ⟨m2, h2, hok, t2⟩ := pseq_eq_of_ok _ _ _ hok
    rw [t2]
    obtain ⟨m3, h3, hok, t3⟩ := pseq_eq_of_ok _ _ _ hok
    rw [t3]
    obtain ⟨m4, h4, hok, t4⟩ := pseq_eq_of_ok _ _ _ hok
    rw [t4]
    obtain ⟨m5, h5, hok, t5⟩ := pseq_eq_of_ok _ _ _ hok
    rw [t5, hv]
    simp only [List.filter_append]
    rw [filter_mmds_nil_of_rank _ 0 (by omega) (restoreLegacyPhase_rank _ _ _),
      filter_mmds_nil_of_rank _ 1 (by omega) (restoreBalloonPhase_rank _ _ _ _),
      filter_mmds_nil_of_rank _ 2 (by omega) (restoreBlocksLoop_rank _ _ _ _),
      filter_mmds_nil_of_rank _ 4 (by omega) (restoreNetsLoop_rank _ _ _ _),
      filter_mmds_nil_of_rank _ 5 (by omega) (restoreVsockPhase_rank _ _ _ _),
      restoreMmdsPhase_none_any_trace _ _ _ _ hany']
    simp [isMmdsEv]
  · intro M hok hv hnone
    have hany' : state.net_devices.any (fun d => d.device_state.mmds_ns.isSome) = false := by
      rw [List.any_eq_false]
      intro d hd
      simp [hnone d hd]
    simp only [MMIODeviceManager.restore] at hok ⊢
    obtain ⟨m1, h1, hok, t1⟩ := pseq_eq_of_ok _ _ _ hok
    rw [t1]
    obtain ⟨m2, h2, hok, t2⟩ := pseq_eq_of_ok _ _ _ hok
    rw [t2]
    obtain ⟨m3, h3, hok, t3⟩ := pseq_eq_of_ok _ _ _ hok
    rw [t3]
    obtain ⟨m4, h4, hok, t4⟩ := pseq_eq_of_ok _ _ _ hok
    rw [t4]
    obtain ⟨m5, h5, hok, t5⟩ := pseq_eq_of_ok _ _ _ hok
    rw [t5, hv]
    simp only [List.filter_append]
    rw [filter_mmds_nil_of_rank _ 0 (by omega) (restoreLegacyPhase_rank _ _ _),
      filter_mmds_nil_of_rank _ 1 (by omega) (restoreBalloonPhase_rank _ _ _ _),
      filter_mmds_nil_of_rank _ 2 (by omega) (restoreBlocksLoop_rank _ _ _ _),
      filter_mmds_nil_of_rank _ 4 (by omega) (restoreNetsLoop_rank _ _ _ _),
      filter_mmds_nil_of_rank _ 5 (by omega) (restoreVsockPhase_rank _ _ _ _),
      restoreMmdsPhase_none_none_trace _ _ _ _ hany']
    simp
  · have hranks := restore_trace_ranks args state
    rw [List.pairwise_map] at hranks
    refine hranks.imp ?_
    intro a b hle hnet
    cases hm : isMmdsEv b
    · rfl
    · exfalso
      rw [isNetEv_rank a hnet, (isMmdsEv_iff_rank b).1 hm] at hle
      omega
  · intro he hb hbl v hv hrej
    simp [MMIODeviceManager.restore, he, hb, hbl, hv, pseq, restoreLegacyPhase,
      restoreLegacyLoop, restoreBalloonPhase, restoreBlocksLoop, restoreMmdsPhase,
      VmResources.set_mmds_version, hrej]

/-- A concrete net record declaring an MMDS namespace. -/
def connectedNet0 : ConnectedNetState :=
  { device_id := "netif",
    device_state := { payload := 7, mmds_ns := some MmdsVersionState.V2 },
    transport_state := 12,
    mmio_slot := { addr := 0xd0002000, len := 0x1000, irq := 7 } }

/-- A `DeviceStates` with one net device declaring an MMDS namespace and
a persisted MMDS version. -/
def netMmdsStates : DeviceStates :=
  { DeviceStates.empty with
      net_devices := [connectedNet0],
      mmds_version := some MmdsVersionState.V2 }

/-- The manager restoring `netMmdsStates` produces. -/
def netMmdsRestored : MMIODeviceManager :=
  { mmio_base := MMIO_MEM_START, irq_first := IRQ_BASE, irq_last := IRQ_MAX,
    entries := restoredEntries netMmdsStates }

/-- Witness for `restore_mmds_before_nets`: restoring a snapshot carrying
`mmds_version = Some V2` records exactly the scoped set action. -/
theorem restore_mmds_before_nets_witness :
    ((MMIODeviceManager.restore standardArgs netMmdsStates).2.2).filter isMmdsEv =
      [REvent.mmdsSet MmdsVersionState.V2 standardArgs.instance_id] :=
  (restore_mmds_before_nets standardArgs netMmdsStates).1 netMmdsRestored
    MmdsVersionState.V2 (by decide) rfl

/-- The (device id, MMIO slot) pair of a directory entry. -/
def entryPair (e : DeviceEntry) : String × MMIODeviceInfo := (e.devid, e.devinfo)

/-- A slot lies within a manager's MMIO window and IRQ range. -/
def entryFits (m : MMIODeviceManager) (slot : MMIODeviceInfo) : Prop :=
  m.mmio_base ≤ slot.addr ∧ m.irq_first ≤ slot.irq ∧ slot.irq ≤ m.irq_last

/-- Two slots neither overlap nor share an IRQ. -/
def infoCompat (a b : MMIODeviceInfo) : Prop :=
  overlaps a b = false ∧ ¬ a.irq = b.irq

instance (m : MMIODeviceManager) (slot : MMIODeviceInfo) : Decidable (entryFits m slot) := by
  unfold entryFits
  infer_instance

instance (a b : MMIODeviceInfo) : Decidable (infoCompat a b) := by
  unfold infoCompat
  infer_instance

theorem infoCompat_symm (a b : MMIODeviceInfo) (h : infoCompat a b) : infoCompat b a := by
  obtain ⟨h1, h2⟩ := h
  refine ⟨?_, fun hh => h2 hh.symm⟩
  simp only [overlaps, Bool.and_eq_false_iff] at h1 ⊢
  tauto

theorem slot_sanity_check_iff (m : MMIODeviceManager) (slot : MMIODeviceInfo) :
    m.slot_sanity_check slot = true ↔
      entryFits m slot ∧ ∀ e ∈ m.entries, infoCompat e.devinfo slot := by
  simp [MMIODeviceManager.slot_sanity_check, entryFits, infoCompat, List.all_eq_true,
    Bool.and_eq_true, and_assoc]

theorem replay_set_rejects (f : VmResources → SharedDeviceType → VmResources)
    (hf : ∀ res d, (f res d).set_rejects = res.set_rejects) (t : List REvent) :
    ∀ res, (replay f res t).set_rejects = res.set_rejects := by
  induction t with
  | nil => intro res; rfl
  | cons ev rest ih =>
    intro res
    have hstep : (replayEvent f res ev).set_rejects = res.set_rejects := by
      cases ev <;> simp [replayEvent, hf, VmResources.mmds_or_default] <;>
        split <;> rfl
    calc (replay f res (ev :: rest)).set_rejects
        = (replay f (replayEvent f res ev) rest).set_rejects := rfl
      _ = (replayEvent f res ev).set_rejects := ih _
      _ = res.set_rejects := hstep

theorem pseq_ok_eval (r : PhaseOut) (k : MMIODeviceManager → VmResources → PhaseOut)
    (m : MMIODeviceManager) (h : r.1 = Except.ok m) :
    pseq r k = ((k m r.2.1).1, (k m r.2.1).2.1, r.2.2 ++ (k m r.2.1).2.2) := by
  rcases r with ⟨r1, res, tr⟩
  cases r1 with
  | ok m' =>
    simp only at h
    cases h
    rfl
  | error e => cases h

theorem restoreLegacyLoop_ok_of (l : List ConnectedLegacyState) : ∀ m : MMIODeviceManager,
    (∀ s ∈ l, entryFits m s.mmio_slot) →
    (∀ e ∈ m.entries, ∀ s ∈ l, infoCompat e.devinfo s.mmio_slot) →
    List.Pairwise (fun a b => infoCompat a.mmio_slot b.mmio_slot) l →
    (restoreLegacyLoop m l).1 =
      Except.ok { m with entries := m.entries ++ l.filterMap legacyEntryOf } := by
  induction l with
  | nil =>
    intro m _ _ _
    simp [restoreLegacyLoop]
  | cons s rest ih =>
    intro m hfits hcomp hpair
    have hsan : m.slot_sanity_check s.mmio_slot = true := by
      rw [slot_sanity_check_iff]
      exact ⟨hfits s (by simp), fun e he => hcomp e he s (by simp)⟩
    obtain ⟨hpairhd, hpairtl⟩ := List.pairwise_cons.1 hpair
    cases ht : s.type_
    · have hreg : m.register_mmio_serial s.mmio_slot =
          Except.ok (m.register serialDeviceId s.mmio_slot BusDevice.serial) := by
        simp [MMIODeviceManager.register_mmio_serial, hsan]
      simp only [restoreLegacyLoop, ht, hreg]
      have := ih (m.register serialDeviceId s.mmio_slot BusDevice.serial)
        (fun x hx => hfits x (by simp [hx]))
        (by
          intro e he x hx
          simp only [MMIODeviceManager.register, List.mem_append,
            List.mem_singleton] at he
          rcases he with he | he
          · exact hcomp e he x (by simp [hx])
          · subst he
            exact hpairhd x hx)
        hpairtl
      rw [this]
      simp [MMIODeviceManager.register, legacyEntryOf, ht]
    · have hreg : m.register_mmio_rtc s.mmio_slot =
          Except.ok (m.register rtcDeviceId s.mmio_slot BusDevice.rtc) := by
        simp [MMIODeviceManager.register_mmio_rtc, hsan]
      simp only [restoreLegacyLoop, ht, hreg]
      have := ih (m.register rtcDeviceId s.mmio_slot BusDevice.rtc)
        (fun x hx => hfits x (by simp [hx]))
        (by
          intro e he x hx
          simp only [MMIODeviceManager.register, List.mem_append,
            List.mem_singleton] at he
          rcases he with he | he
          · exact hcomp e he x (by simp [hx])
          · subst he
            exact hpairhd x hx)
        hpairtl
      rw [this]
      simp [MMIODeviceManager.register, legacyEntryOf, ht]
    · simp only [restoreLegacyLoop, ht]
      have := ih m (fun x hx => hfits x (by simp [hx]))
        (fun e he x hx => hcomp e he x (by simp [hx])) hpairtl
      rw [this]
      simp [legacyEntryOf, ht]

theorem restore_helper_ok_of (m : MMIODeviceManager) (id : String)
    (slot : MMIODeviceInfo) (dev : BusDevice)
    (hfits : entryFits m slot) (hcomp : ∀ e ∈ m.entries, infoCompat e.devinfo slot) :
    restore_helper m id slot dev = Except.ok (m.register id slot dev) := by
  have hsan : m.slot_sanity_check slot = true := by
    rw [slot_sanity_check_iff]
    exact ⟨hfits, hcomp⟩
  simp [restore_helper, hsan]

theorem restoreBalloonPhase_ok_of (f : VmResources → SharedDeviceType → VmResources)
    (m : MMIODeviceManager) (res : VmResources) (ob : Option ConnectedBalloonState)
    (hfits : ∀ b ∈ ob.toList, entryFits m b.mmio_slot)
    (hcomp : ∀ e ∈ m.entries, ∀ b ∈ ob.toList, infoCompat e.devinfo b.mmio_slot) :
    (restoreBalloonPhase f m res ob).1 =
      Except.ok { m with entries := m.entries ++ ob.toList.map balloonEntryOf } := by
  cases ob with
  | none => simp [restoreBalloonPhase]
  | some b =>
    have := restore_helper_ok_of m b.device_id b.mmio_slot
      (BusDevice.balloon b.transport_state b.device_state)
      (hfits b (by simp)) (fun e he => hcomp e he b (by simp))
    simp only [restoreBalloonPhase, this]
    simp [MMIODeviceManager.register, balloonEntryOf]

theorem restoreBlocksLoop_ok_of (f : VmResources → SharedDeviceType → VmResources)
    (l : List ConnectedBlockState) : ∀ (m : MMIODeviceManager) (res : VmResources),
    (∀ b ∈ l, entryFits m b.mmio_slot) →
    (∀ e ∈ m.entries, ∀ b ∈ l, infoCompat e.devinfo b.mmio_slot) →
    List.Pairwise (fun a b => infoCompat a.mmio_slot b.mmio_slot) l →
    (restoreBlocksLoop f m res l).1 =
      Except.ok { m with entries := m.entries ++ l.map blockEntryOf } := by
  induction l with
  | nil =>
    intro m res _ _ _
    simp [restoreBlocksLoop]
  | cons b rest ih =>
    intro m res hfits hcomp hpair
    obtain ⟨hpairhd, hpairtl⟩ := List.pairwise_cons.1 hpair
    have hh := restore_helper_ok_of m b.device_id b.mmio_slot
      (BusDevice.block b.transport_state b.device_state)
      (hfits b (by simp)) (fun e he => hcomp e he b (by simp))
    simp only [restoreBlocksLoop, hh]
    have := ih (m.register b.device_id b.mmio_slot
        (BusDevice.block b.transport_state b.device_state))
      (f res (SharedDeviceType.sharedBlock b.device_state))
      (fun x hx => hfits x (by simp [hx]))
      (by
        intro e he x hx
        simp only [MMIODeviceManager.register, List.mem_append,
          List.mem_singleton] at he
        rcases he with he | he
        · exact hcomp e he x (by simp [hx])
        · subst he
          exact hpairhd x hx)
      hpairtl
    rw [this]
    simp [MMIODeviceManager.register, blockEntryOf]

theorem restoreMmdsPhase_ok_of (instance_id : String) (nets : List ConnectedNetState)
    (m : MMIODeviceManager) (res : VmResources) (mv : Option MmdsVersionState)
    (hrej : res.set_rejects = false) :
    (restoreMmdsPhase instance_id nets m res mv).1 = Except.ok m := by
  cases mv with
  | some v => simp [restoreMmdsPhase, VmResources.set_mmds_version, hrej]
  | none =>
    cases hn : nets.any (fun d => d.device_state.mmds_ns.isSome) <;>
      simp [restoreMmdsPhase, hn]

theorem restoreNetsLoop_ok_of (f : VmResources → SharedDeviceType → VmResources)
    (l : List ConnectedNetState) : ∀ (m : MMIODeviceManager) (res : VmResources),
    (∀ n ∈ l, entryFits m n.mmio_slot) →
    (∀ e ∈ m.entries, ∀ n ∈ l, infoCompat e.devinfo n.mmio_slot) →
    List.Pairwise (fun a b => infoCompat a.mmio_slot b.mmio_slot) l →
    (restoreNetsLoop f m res l).1 =
      Except.ok { m with entries := m.entries ++ l.map netEntryOf } := by
  induction l with
  | nil =>
    intro m res _ _ _
    simp [restoreNetsLoop]
  | cons n rest ih =>
    intro m res hfits hcomp hpair
    obtain ⟨hpairhd, hpairtl⟩ := List.pairwise_cons.1 hpair
    have hh := restore_helper_ok_of m n.device_id n.mmio_slot
      (BusDevice.net n.transport_state n.device_state)
      (hfits n (by simp)) (fun e he => hcomp e he n (by simp))
    simp only [restoreNetsLoop, hh]
    have := ih (m.register n.device_id n.mmio_slot
        (BusDevice.net n.transport_state n.device_state))
      (f res (SharedDeviceType.sharedNetwork n.device_state))
      (fun x hx => hfits x (by simp [hx]))
      (by
        intro e he x hx
        simp only [MMIODeviceManager.register, List.mem_append,
          List.mem_singleton] at he
        rcases he with he | he
        · exact hcomp e he x (by simp [hx])
        · subst he
          exact hpairhd x hx)
      hpairtl
    rw [this]
    simp [MMIODeviceManager.register, netEntryOf]

theorem restoreVsockPhase_ok_of (f : VmResources → SharedDeviceType → VmResources)
    (m : MMIODeviceManager) (res : VmResources) (ov : Option ConnectedVsockState)
    (hfits : ∀ v ∈ ov.toList, entryFits m v.mmio_slot)
    (hcomp : ∀ e ∈ m.entries, ∀ v ∈ ov.toList, infoCompat e.devinfo v.mmio_slot) :
    (restoreVsockPhase f m res ov).1 =
      Except.ok { m with entries := m.entries ++ ov.toList.map vsockEntryOf } := by
  cases ov with
  | none => simp [restoreVsockPhase]
  | some v =>
    have := restore_helper_ok_of m v.device_id v.mmio_slot
      (BusDevice.vsock v.transport_state v.device_state false true)
      (hfits v (by simp)) (fun e he => hcomp e he v (by simp))
    simp only [restoreVsockPhase, this]
    simp [MMIODeviceManager.register, vsockEntryOf]

/-- The MMIO slots a `DeviceStates` names, in registration order. -/
def stateSlots (state : DeviceStates) : List MMIODeviceInfo :=
  state.legacy_devices.map ConnectedLegacyState.mmio_slot ++
  state.balloon_device.toList.map ConnectedBalloonState.mmio_slot ++
  state.block_devices.map ConnectedBlockState.mmio_slot ++
  state.net_devices.map ConnectedNetState.mmio_slot ++
  state.vsock_device.toList.map ConnectedVsockState.mmio_slot

/-- A slot lies within the platform MMIO window and IRQ range. -/
def platformFits (slot : MMIODeviceInfo) : Prop :=
  MMIO_MEM_START ≤ slot.addr ∧ IRQ_BASE ≤ slot.irq ∧ slot.irq ≤ IRQ_MAX

instance (slot : MMIODeviceInfo) : Decidable (platformFits slot) := by
  unfold platformFits
  infer_instance

theorem legacyEntry_devinfo_mem (l : List ConnectedLegacyState) (e : DeviceEntry)
    (h : e ∈ l.filterMap legacyEntryOf) :
    e.devinfo ∈ l.map ConnectedLegacyState.mmio_slot := by
  obtain ⟨s, hs, hse⟩ := List.mem_filterMap.1 h
  refine List.mem_map.2 ⟨s, hs, ?_⟩
  cases ht : s.type_ <;> simp only [legacyEntryOf, ht] at hse
  · rw [← Option.some.inj hse]
  · rw [← Option.some.inj hse]
  · cases hse

theorem map_entry_devinfo_mem {α : Type} (f : α → DeviceEntry) (g : α → MMIODeviceInfo)
    (hfg : ∀ a, (f a).devinfo = g a) (l : List α) (e : DeviceEntry) (h : e ∈ l.map f) :
    e.devinfo ∈ l.map g := by
  obtain ⟨a, ha, rfl⟩ := List.mem_map.1 h
  exact List.mem_map.2 ⟨a, ha, (hfg a).symm⟩

theorem restoreBalloonPhase_set_rejects (f : VmResources → SharedDeviceType → VmResources)
    (hf : ∀ res d, (f res d).set_rejects = res.set_rejects)
    (m : MMIODeviceManager) (res : VmResources) (ob : Option ConnectedBalloonState) :
    (restoreBalloonPhase f m res ob).2.1.set_rejects = res.set_rejects := by
  rw [restoreBalloonPhase_replay f]
  exact replay_set_rejects f hf _ res

theorem restoreBlocksLoop_set_rejects (f : VmResources → SharedDeviceType → VmResources)
    (hf : ∀ res d, (f res d).set_rejects = res.set_rejects)
    (m : MMIODeviceManager) (res : VmResources) (l : List ConnectedBlockState) :
    (restoreBlocksLoop f m res l).2.1.set_rejects = res.set_rejects := by
  rw [restoreBlocksLoop_replay f]
  exact replay_set_rejects f hf _ res

/-- When every slot the snapshot names lies in the platform window and
no two of them collide, and the MMDS setter does not reject, restore
succeeds and the resulting directory is exactly `restoredEntries`. -/
theorem restore_ok_of_wf (args : MMIODevManagerConstructorArgs) (state : DeviceStates)
    (hf : ∀ res d, (args.for_each_restored_device res d).set_rejects = res.set_rejects)
    (hrej : args.vm_resources.set_rejects = false)
    (hfitsAll : ∀ slot ∈ stateSlots state, platformFits slot)
    (hpairAll : List.Pairwise infoCompat (stateSlots state)) :
    (MMIODeviceManager.restore args state).1 =
      Except.ok { mmio_base := MMIO_MEM_START, irq_first := IRQ_BASE, irq_last := IRQ_MAX,
                  entries := restoredEntries state } := by
  obtain ⟨q4, p5, c4⟩ := List.pairwise_append.1 hpairAll
  obtain ⟨q3, p4, c3⟩ := List.pairwise_append.1 q4
  obtain ⟨q2, p3, c2⟩ := List.pairwise_append.1 q3
  obtain ⟨p1, p2, c1⟩ := List.pairwise_append.1 q2
  simp only [stateSlots, List.mem_append] at hfitsAll
  set m0 := MMIODeviceManager.new MMIO_MEM_START (IRQ_BASE, IRQ_MAX) with hm0
  set f := args.for_each_restored_device with hfd
  set res0 := args.vm_resources with hres0
  -- the five entry segments
  set Lent := state.legacy_devices.filterMap legacyEntryOf with hLent
  set Bent := state.balloon_device.toList.map balloonEntryOf with hBent
  set Kent := state.block_devices.map blockEntryOf with hKent
  set Nent := state.net_devices.map netEntryOf with hNent
  set Vent := state.vsock_device.toList.map vsockEntryOf with hVent
  -- membership of entry slots in the corresponding record-slot segments
  have memL : ∀ e ∈ Lent, e.devinfo ∈
      state.legacy_devices.map ConnectedLegacyState.mmio_slot :=
    fun e he => legacyEntry_devinfo_mem _ e he
  have memB : ∀ e ∈ Bent, e.devinfo ∈
      state.balloon_device.toList.map ConnectedBalloonState.mmio_slot :=
    fun e he => map_entry_devinfo_mem _ _ (fun a => rfl) _ e he
  have memK : ∀ e ∈ Kent, e.devinfo ∈
      state.block_devices.map ConnectedBlockState.mmio_slot :=
    fun e he => map_entry_devinfo_mem _ _ (fun a => rfl) _ e he
  have memN : ∀ e ∈ Nent, e.devinfo ∈
      state.net_devices.map ConnectedNetState.mmio_slot :=
    fun e he => map_entry_devinfo_mem _ _ (fun a => rfl) _ e he
  -- phase 1: legacy devices
  have h1 : (restoreLegacyPhase m0 res0 state.legacy_devices).1 =
      Except.ok { m0 with entries := m0.entries ++ Lent } := by
    apply restoreLegacyLoop_ok_of
    · intro s hs
      exact hfitsAll s.mmio_slot (Or.inl (Or.inl (Or.inl (Or.inl (List.mem_map_of_mem _ hs)))))
    · intro e he
      cases he
    · exact List.pairwise_map.1 p1
  rw [MMIODeviceManager.restore]
  rw [pseq_ok_eval _ _ _ h1]
  have hres1 : (restoreLegacyPhase m0 res0 state.legacy_devices).2.1 = res0 := rfl
  rw [hres1]
  set m1 : MMIODeviceManager := { m0 with entries := m0.entries ++ Lent } with hm1
  have hm1e : m1.entries = Lent := by simp [hm1, hm0, MMIODeviceManager.new]
  -- phase 2: balloon
  have h2 : (restoreBalloonPhase f m1 res0 state.balloon_device).1 =
      Except.ok { m1 with entries := m1.entries ++ Bent } := by
    apply restoreBalloonPhase_ok_of
    · intro b hb
      exact hfitsAll b.mmio_slot (Or.inl (Or.inl (Or.inl (Or.inr (List.mem_map_of_mem _ hb)))))
    · intro e he b hb
      rw [hm1e] at he
      exact c1 e.devinfo (memL e he) b.mmio_slot (List.mem_map_of_mem _ hb)
  rw [pseq_ok_eval _ _ _ h2]
  set res2 := (restoreBalloonPhase f m1 res0 state.balloon_device).2.1 with hres2
  set m2 : MMIODeviceManager := { m1 with entries := m1.entries ++ Bent } with hm2
  have hm2e : m2.entries = Lent ++ Bent := by rw [hm2, hm1e]
  -- phase 3: blocks
  have h3 : (restoreBlocksLoop f m2 res2 state.block_devices).1 =
      Except.ok { m2 with entries := m2.entries ++ Kent } := by
    apply restoreBlocksLoop_ok_of
    · intro b hb
      exact hfitsAll b.mmio_slot (Or.inl (Or.inl (Or.inr (List.mem_map_of_mem _ hb))))
    · intro e he b hb
      rw [hm2e] at he
      rcases List.mem_append.1 he with he | he
      · exact c2 e.devinfo (List.mem_append.2 (Or.inl (memL e he))) b.mmio_slot
          (List.mem_map_of_mem _ hb)
      · exact c2 e.devinfo (List.mem_append.2 (Or.inr (memB e he))) b.mmio_slot
          (List.mem_map_of_mem _ hb)
    · exact List.pairwise_map.1 p3
  rw [pseq_ok_eval _ _ _ h3]
  set res3 := (restoreBlocksLoop f m2 res2 state.block_devices).2.1 with hres3
  set m3 : MMIODeviceManager := { m2 with entries := m2.entries ++ Kent } with hm3
  have hm3e : m3.entries = (Lent ++ Bent) ++ Kent := by rw [hm3, hm2e]
  -- phase 4: MMDS reconciliation succeeds because the setter flag is
  -- untouched by the callbacks
  have hrej3 : res3.set_rejects = false := by
    rw [hres3, restoreBlocksLoop_set_rejects f hf, hres2,
      restoreBalloonPhase_set_rejects f hf]
    exact hrej
  have h4 : (restoreMmdsPhase args.instance_id state.net_devices m3 res3
      state.mmds_version).1 = Except.ok m3 :=
    restoreMmdsPhase_ok_of _ _ _ _ _ hrej3
  rw [pseq_ok_eval _ _ _ h4]
  set res4 := (restoreMmdsPhase args.instance_id state.net_devices m3 res3
    state.mmds_version).2.1 with hres4
  -- phase 5: nets
  have h5 : (restoreNetsLoop f m3 res4 state.net_devices).1 =
      Except.ok { m3 with entries := m3.entries ++ Nent } := by
    apply restoreNetsLoop_ok_of
    · intro n hn
      exact hfitsAll n.mmio_slot (Or.inl (Or.inr (List.mem_map_of_mem _ hn)))
    · intro e he n hn
      have hmemn : n.mmio_slot ∈ state.net_devices.map ConnectedNetState.mmio_slot :=
        List.mem_map_of_mem _ hn
      rw [hm3e] at he
      rcases List.mem_append.1 he with he | he
      · rcases List.mem_append.1 he with he | he
        · exact c3 e.devinfo
            (List.mem_append.2 (Or.inl (List.mem_append.2 (Or.inl (memL e he)))))
            n.mmio_slot hmemn
        · exact c3 e.devinfo
            (List.mem_append.2 (Or.inl (List.mem_append.2 (Or.inr (memB e he)))))
            n.mmio_slot hmemn
      · exact c3 e.devinfo (List.mem_append.2 (Or.inr (memK e he))) n.mmio_slot hmemn
    · exact List.pairwise_map.1 p4
  rw [pseq_ok_eval _ _ _ h5]
  set res5 := (restoreNetsLoop f m3 res4 state.net_devices).2.1 with hres5
  set m5 : MMIODeviceManager := { m3 with entries := m3.entries ++ Nent } with hm5
  have hm5e : m5.entries = ((Lent ++ Bent) ++ Kent) ++ Nent := by rw [hm5, hm3e]
  -- phase 6: vsock
  have h6 : (restoreVsockPhase f m5 res5 state.vsock_device).1 =
      Except.ok { m5 with entries := m5.entries ++ Vent } := by
    apply restoreVsockPhase_ok_of
    · intro v hv
      exact hfitsAll v.mmio_slot (Or.inr (List.mem_map_of_mem _ hv))
    · intro e he v hv
      have hmemv : v.mmio_slot ∈
          state.vsock_device.toList.map ConnectedVsockState.mmio_slot :=
        List.mem_map_of_mem _ hv
      rw [hm5e] at he
      rcases List.mem_append.1 he with he | he
      · rcases List.mem_append.1 he with he | he
        · rcases List.mem_append.1 he with he | he
          · exact c4 e.devinfo
              (List.mem_append.2 (Or.inl (List.mem_append.2 (Or.inl
                (List.mem_append.2 (Or.inl (memL e he)))))))
              v.mmio_slot hmemv
          · exact c4 e.devinfo
              (List.mem_append.2 (Or.inl (List.mem_append.2 (Or.inl
                (List.mem_append.2 (Or.inr (memB e he)))))))
              v.mmio_slot hmemv
        · exact c4 e.devinfo
            (List.mem_append.2 (Or.inl (List.mem_append.2 (Or.inr (memK e he)))))
            v.mmio_slot hmemv
      · exact c4 e.devinfo (List.mem_append.2 (Or.inr (memN e he))) v.mmio_slot hmemv
  rw [h6]
  simp only [hm5, hm3, hm2, hm1, hm0, MMIODeviceManager.new, restoredEntries]
  simp [List.append_assoc]

theorem entryPair_partition (es : List DeviceEntry)
    (hnb : ∀ e ∈ es, ¬ e.dev = BusDevice.bootTimer)
    (hser : ∀ e ∈ es, (e.dev = BusDevice.serial → e.devid = serialDeviceId) ∧
      (e.dev = BusDevice.rtc → e.devid = rtcDeviceId)) :
    (↑(((es.filterMap legacyRecOf).filterMap legacyEntryOf).map entryPair) :
        Multiset (String × MMIODeviceInfo)) +
    ↑(((es.filterMap balloonRecOf).map balloonEntryOf).map entryPair) +
    ↑(((es.filterMap blockRecOf).map blockEntryOf).map entryPair) +
    ↑(((es.filterMap netRecOf).map netEntryOf).map entryPair) +
    ↑(((es.filterMap vsockRecOf).map vsockEntryOf).map entryPair) =
    ↑(es.map entryPair) := by
  induction es with
  | nil => rfl
  | cons e rest ih =>
    have ihr := ih (fun x hx => hnb x (by simp [hx])) (fun x hx => hser x (by simp [hx]))
    cases e with
    | mk devid devinfo dev =>
      cases dev with
      | balloon ts st =>
        simp only [legacyRecOf, balloonRecOf, blockRecOf, netRecOf, vsockRecOf,
          List.filterMap_cons, List.map_cons, balloonEntryOf, entryPair,
          ← Multiset.cons_coe, Multiset.cons_add, Multiset.add_cons]
        rw [← ihr]
      | block ts st =>
        simp only [legacyRecOf, balloonRecOf, blockRecOf, netRecOf, vsockRecOf,
          List.filterMap_cons, List.map_cons, blockEntryOf, entryPair,
          ← Multiset.cons_coe, Multiset.cons_add, Multiset.add_cons]
        rw [← ihr]
      | net ts st =>
        simp only [legacyRecOf, balloonRecOf, blockRecOf, netRecOf, vsockRecOf,
          List.filterMap_cons, List.map_cons, netEntryOf, entryPair,
          ← Multiset.cons_coe, Multiset.cons_add, Multiset.add_cons]
        rw [← ihr]
      | vsock ts st act ok =>
        simp only [legacyRecOf, balloonRecOf, blockRecOf, netRecOf, vsockRecOf,
          List.filterMap_cons, List.map_cons, vsockEntryOf, entryPair,
          ← Multiset.cons_coe, Multiset.cons_add, Multiset.add_cons]
        rw [← ihr]
      | serial =>
        have hid : devid = serialDeviceId :=
          (hser ⟨devid, devinfo, BusDevice.serial⟩ (by simp)).1 rfl
        subst hid
        simp only [legacyRecOf, balloonRecOf, blockRecOf, netRecOf, vsockRecOf,
          List.filterMap_cons, List.map_cons, legacyEntryOf, entryPair,
          ← Multiset.cons_coe, Multiset.cons_add, Multiset.add_cons]
        rw [← ihr]
      | rtc =>
        have hid : devid = rtcDeviceId :=
          (hser ⟨devid, devinfo, BusDevice.rtc⟩ (by simp)).2 rfl
        subst hid
        simp only [legacyRecOf, balloonRecOf, blockRecOf, netRecOf, vsockRecOf,
          List.filterMap_cons, List.map_cons, legacyEntryOf, entryPair,
          ← Multiset.cons_coe, Multiset.cons_add, Multiset.add_cons]
        rw [← ihr]
      | bootTimer =>
        exact absurd rfl (hnb ⟨devid, devinfo, BusDevice.bootTimer⟩ (by simp))

theorem restoredEntries_save (m : MMIODeviceManager)
    (hb1 : (m.entries.filterMap balloonRecOf).length ≤ 1)
    (hv1 : (m.entries.filterMap vsockRecOf).length ≤ 1) :
    restoredEntries (m.save).1 =
      (m.entries.filterMap legacyRecOf).filterMap legacyEntryOf ++
      (m.entries.filterMap balloonRecOf).map balloonEntryOf ++
      (m.entries.filterMap blockRecOf).map blockEntryOf ++
      (m.entries.filterMap netRecOf).map netEntryOf ++
      (m.entries.filterMap vsockRecOf).map vsockEntryOf := by
  have hleg : (m.save).1.legacy_devices = m.entries.filterMap legacyRecOf := by
    simp [MMIODeviceManager.save, saveLoop_legacy, DeviceStates.empty]
  have hblk : (m.save).1.block_devices = m.entries.filterMap blockRecOf := by
    simp [MMIODeviceManager.save, saveLoop_blocks, DeviceStates.empty]
  have hnet : (m.save).1.net_devices = m.entries.filterMap netRecOf := by
    simp [MMIODeviceManager.save, saveLoop_nets, DeviceStates.empty]
  have hbal : (m.save).1.balloon_device.toList = m.entries.filterMap balloonRecOf := by
    have : (m.save).1.balloon_device = (m.entries.filterMap balloonRecOf).getLast? := by
      simp [MMIODeviceManager.save, saveLoop_balloon, DeviceStates.empty]
    rw [this, getLast?_toList_of_length_le_one _ hb1]
  have hvs : (m.save).1.vsock_device.toList = m.entries.filterMap vsockRecOf := by
    have : (m.save).1.vsock_device = (m.entries.filterMap vsockRecOf).getLast? := by
      simp [MMIODeviceManager.save, saveLoop_vsock, DeviceStates.empty]
    rw [this, getLast?_toList_of_length_le_one _ hv1]
  rw [restoredEntries, hleg, hblk, hnet, hbal, hvs]

theorem legacy_slots_eq (es : List DeviceEntry) :
    (((es.filterMap legacyRecOf).filterMap legacyEntryOf).map DeviceEntry.devinfo) =
      (es.filterMap legacyRecOf).map ConnectedLegacyState.mmio_slot := by
  induction es with
  | nil => rfl
  | cons e rest ih =>
    cases e with
    | mk devid devinfo dev =>
      cases dev <;>
        simp [legacyRecOf, legacyEntryOf, ih]

/-- The standard callback never touches the MMDS setter flag. -/
theorem update_from_restored_device_set_rejects (res : VmResources) (d : SharedDeviceType) :
    (VmResources.update_from_restored_device res d).set_rejects = res.set_rejects := by
  cases d <;> rfl

theorem map_snd_entryPair (l : List DeviceEntry) :
    (l.map entryPair).map Prod.snd = l.map DeviceEntry.devinfo := by
  induction l with
  | nil => rfl
  | cons e rest ih => simp [entryPair, ih]

/-- C1 (amended): for every live MMIO device directory containing only
supported device kinds (no boot timer), whose slots lie in the platform
MMIO window and IRQ range and are pairwise non-colliding, whose legacy
devices carry the default ids they are re-registered under, and which
holds at most one balloon and at most one vsock device, restoring the
`DeviceStates` produced by save — with a callback that leaves the MMDS
setter flag alone and a non-rejecting setter — succeeds and yields a
device manager whose multiset of (device id, MMIO slot) pairs equals
that of the live directory.  (Without the at-most-one bound the later
balloon or vsock record silently overwrites the earlier one and a pair
is lost.) -/
theorem restore_save_roundtrip (m : MMIODeviceManager)
    (args : MMIODevManagerConstructorArgs)
    (hnb : ∀ e ∈ m.entries, ¬ e.dev = BusDevice.bootTimer)
    (hser : ∀ e ∈ m.entries, (e.dev = BusDevice.serial → e.devid = serialDeviceId) ∧
      (e.dev = BusDevice.rtc → e.devid = rtcDeviceId))
    (hb1 : (m.entries.filterMap balloonRecOf).length ≤ 1)
    (hv1 : (m.entries.filterMap vsockRecOf).length ≤ 1)
    (hfits : ∀ e ∈ m.entries, platformFits e.devinfo)
    (hpair : List.Pairwise (fun a b => infoCompat a.devinfo b.devinfo) m.entries)
    (hf : ∀ res d, (args.for_each_restored_device res d).set_rejects = res.set_rejects)
    (hrej : args.vm_resources.set_rejects = false) :
    ∃ M, (MMIODeviceManager.restore args (m.save).1).1 = Except.ok M ∧
      ((M.entries.map entryPair : List (String × MMIODeviceInfo)) :
          Multiset (String × MMIODeviceInfo)) = ↑(m.entries.map entryPair) := by
  have hR := restoredEntries_save m hb1 hv1
  -- the multiset of restored (id, slot) pairs equals the live one
  have hmult : ((restoredEntries (m.save).1).map entryPair :
      Multiset (String × MMIODeviceInfo)) = ↑(m.entries.map entryPair) := by
    rw [hR]
    simp only [List.map_append, ← Multiset.coe_add]
    exact entryPair_partition m.entries hnb hser
  have hperm : List.Perm ((restoredEntries (m.save).1).map entryPair)
      (m.entries.map entryPair) :=
    Multiset.coe_eq_coe.1 hmult
  have hpermSlots : List.Perm ((restoredEntries (m.save).1).map DeviceEntry.devinfo)
      (m.entries.map DeviceEntry.devinfo) := by
    have := hperm.map Prod.snd
    rwa [map_snd_entryPair, map_snd_entryPair] at this
  -- the slots named by the snapshot are the restored entries' slots
  have hslots_eq : stateSlots (m.save).1 =
      (restoredEntries (m.save).1).map DeviceEntry.devinfo := by
    have hleg : (m.save).1.legacy_devices = m.entries.filterMap legacyRecOf := by
      simp [MMIODeviceManager.save, saveLoop_legacy, DeviceStates.empty]
    have hblk : (m.save).1.block_devices = m.entries.filterMap blockRecOf := by
      simp [MMIODeviceManager.save, saveLoop_blocks, DeviceStates.empty]
    have hnet : (m.save).1.net_devices = m.entries.filterMap netRecOf := by
      simp [MMIODeviceManager.save, saveLoop_nets, DeviceStates.empty]
    have hbal : (m.save).1.balloon_device.toList = m.entries.filterMap balloonRecOf := by
      have : (m.save).1.balloon_device = (m.entries.filterMap balloonRecOf).getLast? := by
        simp [MMIODeviceManager.save, saveLoop_balloon, DeviceStates.empty]
      rw [this, getLast?_toList_of_length_le_one _ hb1]
    have hvs : (m.save).1.vsock_device.toList = m.entries.filterMap vsockRecOf := by
      have : (m.save).1.vsock_device = (m.entries.filterMap vsockRecOf).getLast? := by
        simp [MMIODeviceManager.save, saveLoop_vsock, DeviceStates.empty]
      rw [this, getLast?_toList_of_length_le_one _ hv1]
    rw [stateSlots, hleg, hblk, hnet, hbal, hvs, hR]
    simp only [List.map_append, legacy_slots_eq, List.map_map]
    rfl
  have hfitsAll : ∀ slot ∈ stateSlots (m.save).1, platformFits slot := by
    intro slot hslot
    rw [hslots_eq] at hslot
    have : slot ∈ m.entries.map DeviceEntry.devinfo := hpermSlots.mem_iff.1 hslot
    obtain ⟨e, he, rfl⟩ := List.mem_map.1 this
    exact hfits e he
  have hpairAll : List.Pairwise infoCompat (stateSlots (m.save).1) := by
    rw [hslots_eq]
    exact (hpermSlots.pairwise_iff (fun h => infoCompat_symm _ _ h)).2
      (List.pairwise_map.2 hpair)
  refine ⟨_, restore_ok_of_wf args (m.save).1 hf hrej hfitsAll hpairAll, hmult⟩

/-- Witness for `restore_save_roundtrip` on a concrete directory with a
block device and a vsock device. -/
theorem restore_save_roundtrip_witness :
    ∃ M, (MMIODeviceManager.restore standardArgs (vsockWitnessM.save).1).1 =
        Except.ok M ∧
      ((M.entries.map entryPair : List (String × MMIODeviceInfo)) :
          Multiset (String × MMIODeviceInfo)) =
        ↑(vsockWitnessM.entries.map entryPair) :=
  restore_save_roundtrip vsockWitnessM standardArgs (by decide) (by decide) (by decide)
    (by decide) (by decide) (by decide)
    (fun res d => update_from_restored_device_set_rejects res d) rfl

/-- A live directory with two (non-activated) vsock devices on valid,
non-colliding slots. -/
def twoVsockM : MMIODeviceManager :=
  { mmio_base := MMIO_MEM_START, irq_first := IRQ_BASE, irq_last := IRQ_MAX,
    entries := [
      { devid := "vsockA", devinfo := { addr := 0xd0000000, len := 0x1000, irq := 5 },
        dev := BusDevice.vsock 1 vsockSt0 false true },
      { devid := "vsockB", devinfo := { addr := 0xd0001000, len := 0x1000, irq := 6 },
        dev := BusDevice.vsock 2 vsockSt0 false true } ] }

/-- The manager restoring `twoVsockM`'s snapshot produces. -/
def twoVsockRestored : MMIODeviceManager :=
  { mmio_base := MMIO_MEM_START, irq_first := IRQ_BASE, irq_last := IRQ_MAX,
    entries := restoredEntries (twoVsockM.save).1 }

/-- Counterexample to C1 as stated: a live directory with two vsock
devices contains only supported kinds, yet restoring its snapshot yields
a directory with a single vsock — the Option-typed vsock record was
overwritten during save, so the (device id, slot) multisets differ. -/
theorem restore_save_roundtrip_counterexample :
    (MMIODeviceManager.restore standardArgs (twoVsockM.save).1).1 =
      Except.ok twoVsockRestored ∧
    ¬ ((twoVsockRestored.entries.map entryPair : List (String × MMIODeviceInfo)) :
        Multiset (String × MMIODeviceInfo)) = ↑(twoVsockM.entries.map entryPair) := by
  constructor
  · decide
  · decide

end DevicePersist
